import Mathlib

/-!
# sleepwatcher: the callbacks and the configuration functions of `sleepwatcher.c`

A shallow embedding of the callbacks that the run loop invokes
(`powerCallback`, `displayCallback`, `powerSourceCallback`, `hidCallback`,
`idleCallback`) together with the helpers they call (`message`, `setupTimer`,
`setupIdleTimer`, `getPowerSource`).

* The global `args` and the function-local `static` variables are the fields
  of `State`; every callback is a function from the state before to the state
  after, paired with the list of externally visible effects in program order.
* `CFAbsoluteTime` and every other `double` is a value of `Double`, an IEEE 754
  binary64 number given by its integer significand and binary exponent, with
  the two infinities and NaN; `+`, `-`, `*` and the conversion from `long`
  round to nearest, ties to even, once per operation. Every call of
  `CFAbsoluteTimeGetCurrent()` is an explicit argument carrying the value the
  clock returned at that call.
* `system()` is part of the environment `Env`; its wait status is decoded by
  the `<sys/wait.h>` operations `WIFEXITED` and `WEXITSTATUS`, also fields of
  `Env`.
* The configuration functions (`setstr`, `scanTime`, `checkTimeoutCommand`,
  `writePidFile`, `readConfig`, `setOption`, `parseArgs`, `signalCallback`) are
  runs (`Run`): the actions in program order and an outcome, which is a return
  value, `exit`, undefined behaviour, or an exhausted budget of nested config
  files. What `getopt_long`, `basename` and the file system answer is the
  parameter `Host`.
-/

namespace Sleepwatcher

set_option maxRecDepth 100000

/-! ## Double-precision arithmetic

The C type `double` (IEEE 754 binary64) with the operations the program
applies to it: conversion from `long`, `+`, `-`, `*`, `>=` and `==`. A finite
value is `mantissa * 2 ^ exponent`, kept in the form the format stores: zero
is `finite 0 0`, a normal number has `2 ^ 52 ≤ |mantissa| < 2 ^ 53` and
`-1074 ≤ exponent ≤ 971`, a subnormal number has `|mantissa| < 2 ^ 52` and
exponent `-1074`. Every operation computes the exact result over the integers
and rounds it once, to nearest with ties to even (the default rounding mode);
a result beyond the largest finite value is an infinity. The sign of a zero is
not represented (the program never divides and never prints a `double`), and
an expression is evaluated operation by operation, without contraction into a
fused multiply-add. -/

/-- A value of the C type `double`. -/
inductive Double where
  /-- the finite value `mantissa * 2 ^ exponent` -/
  | finite (mantissa : Int) (exponent : Int)
  /-- plus or minus infinity -/
  | infinity (negative : Bool)
  /-- not a number -/
  | nan
  deriving DecidableEq, Repr

/-- Number of binary digits of `n`, by halving at most `fuel` times. -/
def bitLengthAux : Nat → Nat → Nat
  | 0, _ => 0
  | fuel + 1, n => if n = 0 then 0 else bitLengthAux fuel (n / 2) + 1

/-- Number of binary digits of `n`: `0` for `0`, else the `k` with
`2 ^ (k - 1) ≤ n < 2 ^ k`. -/
def bitLength (n : Nat) : Nat := bitLengthAux n n

/-- The integer nearest to `n / d`, the even one of the two when `n / d` lies
halfway between them. -/
def roundHalfEven (n d : Nat) : Nat :=
  if 2 * (n % d) < d then n / d
  else if d < 2 * (n % d) then n / d + 1
  else if (n / d) % 2 = 0 then n / d else n / d + 1

/-- The `double` nearest to the exact value `m * 2 ^ e`, ties to even: the
significand is cut to 53 binary digits (fewer below the smallest normal
number, where the exponent stays `-1074`), and a significand that rounds up to
`2 ^ 53` moves to the next exponent. -/
def Double.round (m e : Int) : Double :=
  if m = 0 then .finite 0 0
  else
    let e' := max (e + bitLength m.natAbs - 53) (-1074)
    let n : Nat :=
      if e' ≤ e then m.natAbs * 2 ^ (e - e').toNat
      else roundHalfEven m.natAbs (2 ^ (e' - e).toNat)
    let n' : Nat := if n = 2 ^ 53 then 2 ^ 52 else n
    let e'' : Int := if n = 2 ^ 53 then e' + 1 else e'
    if 971 < e'' then .infinity (decide (m < 0))
    else if n' = 0 then .finite 0 0
    else .finite (if m < 0 then -(n' : Int) else n') e''

/-- Conversion of a `long` to `double`. -/
def Double.ofLong (n : Int) : Double := Double.round n 0

instance (n : Nat) : OfNat Double n := ⟨Double.ofLong n⟩

/-- Unary minus. -/
def Double.neg : Double → Double
  | .finite m e => .finite (-m) e
  | .infinity negative => .infinity (!negative)
  | .nan => .nan

/-- The operator `+` on `double`. -/
def Double.add : Double → Double → Double
  | .finite a ea, .finite b eb =>
    Double.round (a * 2 ^ (ea - min ea eb).toNat + b * 2 ^ (eb - min ea eb).toNat) (min ea eb)
  | .finite _ _, .infinity negative => .infinity negative
  | .infinity negative, .finite _ _ => .infinity negative
  | .infinity s, .infinity t => if s = t then .infinity s else .nan
  | _, _ => .nan

/-- The operator `-` on `double`. -/
def Double.sub (a b : Double) : Double := Double.add a (Double.neg b)

/-- The operator `*` on `double`. -/
def Double.mul : Double → Double → Double
  | .finite a ea, .finite b eb => Double.round (a * b) (ea + eb)
  | .finite a _, .infinity s => if a = 0 then .nan else .infinity (s != decide (a < 0))
  | .infinity s, .finite b _ => if b = 0 then .nan else .infinity (s != decide (b < 0))
  | .infinity s, .infinity t => .infinity (s != t)
  | _, _ => .nan

/-- The operator `>=` on `double`; false when an operand is NaN. -/
def Double.ge : Double → Double → Bool
  | .finite a ea, .finite b eb =>
    decide (b * 2 ^ (eb - min ea eb).toNat ≤ a * 2 ^ (ea - min ea eb).toNat)
  | .finite _ _, .infinity negative => negative
  | .infinity negative, .finite _ _ => !negative
  | .infinity s, .infinity t => !s || t
  | _, _ => false

/-- The operator `==` on `double`; false when an operand is NaN. -/
def Double.eq : Double → Double → Bool
  | .finite a ea, .finite b eb =>
    decide (a * 2 ^ (ea - min ea eb).toNat = b * 2 ^ (eb - min ea eb).toNat)
  | .infinity s, .infinity t => s == t
  | _, _ => false

/-! ## Constants -/

/-- The `TIMER_RESOLUTION` constant `0.1`, in seconds: the `double` nearest to
one tenth, `0x1.999999999999ap-4 = 7205759403792794 * 2 ^ (-56)`. -/
def TIMER_RESOLUTION : Double := .finite 7205759403792794 (-56)

/-- The `LOG_ERR` priority of `<syslog.h>`. -/
def LOG_ERR : Nat := 3

/-- The `LOG_INFO` priority of `<syslog.h>`. -/
def LOG_INFO : Nat := 6

/-- The `kCFAbsoluteTimeIntervalSince1904` constant of CoreFoundation, in seconds. -/
def kCFAbsoluteTimeIntervalSince1904 : Double := 3061152000

/-- The `POWER_SOURCE_ERROR` constant: error, don't assume power source changed. -/
def POWER_SOURCE_ERROR : Int := -1

/-- The `POWER_SOURCE_BATTERY` constant: not plugged in, using battery power. -/
def POWER_SOURCE_BATTERY : Int := 0

/-- The `POWER_SOURCE_AC` constant: plugged in, using AC power. -/
def POWER_SOURCE_AC : Int := 1

/-- The `kIOPSACPowerValue` string of `<IOKit/ps/IOPSKeys.h>`. -/
def kIOPSACPowerValue : String := "AC Power"

/-- Enumerator `displayOn` of the anonymous enum in `displayCallback`. -/
def displayOn : Nat := 0

/-- Enumerator `displayDimmed` of the anonymous enum in `displayCallback`. -/
def displayDimmed : Nat := 1

/-- Enumerator `displayOff` of the anonymous enum in `displayCallback`. -/
def displayOff : Nat := 2

/-- Number of values of the `unsigned int` that holds the enum `state`. -/
def UINT_RANGE : Nat := 2 ^ 32

/-! ## Data model -/

/-- Value of `args.allowsleepcommand`: a null pointer, the sentinel
`DENY_SLEEP` (`(char *) 1`), or a pointer to a string. -/
inductive CharPtr where
  | NULL
  | DENY_SLEEP
  | str (s : String)
  deriving DecidableEq, Repr

/-- The global `struct args`. The `char *` fields other than
`allowsleepcommand` hold either `NULL` (`none`) or a string. -/
structure Args where
  argv : List String
  progname : String
  verbose : Bool
  daemon : Bool
  pidfile : Option String
  allowsleepcommand : CharPtr
  cantsleepcommand : Option String
  sleepcommand : Option String
  wakeupcommand : Option String
  displaydimcommand : Option String
  displayundimcommand : Option String
  displaysleepcommand : Option String
  displaywakeupcommand : Option String
  idletimeout : Int
  idlecommand : Option String
  idleresume : Bool
  idleresumecommand : Option String
  breaklength : Int
  resumecommand : Option String
  plugcommand : Option String
  unplugcommand : Option String
  deriving DecidableEq, Repr

/-- A run loop timer as `setupTimer` uses it: the next fire date and the
repeat interval it was created with. -/
structure CFRunLoopTimer where
  fireDate : Double
  interval : Double
  deriving DecidableEq, Repr

/-- The global `args` and the `static` locals of the callbacks. -/
structure State where
  /-- the global `args` -/
  args : Args
  /-- `idleTimer` of `setupIdleTimer`; `none` is `NULL` -/
  idleTimer : Option CFRunLoopTimer
  /-- `timeOfLastCall` of `hidCallback` -/
  timeOfLastCall : Double
  /-- `state` of `displayCallback` -/
  state : Nat
  /-- `oldPowerSource` of `powerSourceCallback` -/
  oldPowerSource : Int
  deriving DecidableEq, Repr

/-- The `args.…command` field whose value a `system()` call site passes. -/
inductive Command where
  | allowsleep | cantsleep | sleep | wakeup
  | displaydim | displayundim | displaysleep | displaywakeup
  | idle | idleresume | resume | plug | unplug
  deriving DecidableEq, Repr

/-- The externally visible actions of the callbacks. -/
inductive Effect where
  /-- the call `system(args.<which>command)`, with the argument passed -/
  | system (which : Command) (cmd : Option String)
  /-- the call `IOAllowPowerChange` -/
  | IOAllowPowerChange
  /-- the call `IOCancelPowerChange` -/
  | IOCancelPowerChange
  /-- the text `message` writes, given by its priority and format string -/
  | output (priority : Nat) (msg : String)
  deriving DecidableEq, Repr

/-- The `msgType` argument of `powerCallback` and `displayCallback`. -/
inductive IOMessage where
  | kIOMessageCanSystemSleep
  | kIOMessageSystemWillSleep
  | kIOMessageSystemWillNotSleep
  | kIOMessageSystemHasPoweredOn
  | kIOMessageDeviceWillPowerOff
  | kIOMessageDeviceHasPoweredOn
  | other (msgType : Nat)
  deriving DecidableEq, Repr

/-- What the callbacks need from the C library: `system()` returning a wait
status, and the `<sys/wait.h>` operations that decode one. -/
structure Env where
  system : String → Int
  WIFEXITED : Int → Bool
  WEXITSTATUS : Int → Int

/-! ## Helpers -/

/-- The function `message`: writes only if `args.verbose` is set or the
priority is more severe than `LOG_INFO`. -/
def message (a : Args) (priority : Nat) (msg : String) : List Effect :=
  if a.verbose ∨ priority < LOG_INFO then [Effect.output priority msg] else []

/-- The function `setupTimer`; `current` is the value of
`CFAbsoluteTimeGetCurrent()` at the call. The fire date is the expression
`CFAbsoluteTimeGetCurrent() + timeout * TIMER_RESOLUTION`: the `long` timeout
is converted to `double`, multiplied and added, each in `double` arithmetic. -/
def setupTimer (timeout : Int) (timer : Option CFRunLoopTimer) (current : Double) :
    Option CFRunLoopTimer :=
  if timeout ≠ 0 then
    match timer with
    | some t =>
      some { t with
        fireDate := Double.add current (Double.mul (Double.ofLong timeout) TIMER_RESOLUTION) }
    | none =>
      some { fireDate := Double.add current (Double.mul (Double.ofLong timeout) TIMER_RESOLUTION)
             interval := kCFAbsoluteTimeIntervalSince1904 }
  else
    none

/-- The function `setupIdleTimer`. -/
def setupIdleTimer (s : State) (current : Double) : State :=
  { s with idleTimer := setupTimer s.args.idletimeout s.idleTimer current }

/-! ## System power notifications -/

/-- The function `powerCallback`; `current` is the clock value read by
`setupIdleTimer` in the `kIOMessageSystemHasPoweredOn` case. -/
def powerCallback (env : Env) (s : State) (current : Double) (msgType : IOMessage) :
    State × List Effect :=
  match msgType with
  | .kIOMessageCanSystemSleep =>
    match s.args.allowsleepcommand with
    | .NULL =>
      (s, message s.args LOG_INFO "allow sleep\n" ++ [Effect.IOAllowPowerChange])
    | .DENY_SLEEP =>
      (s, message s.args LOG_INFO "deny sleep\n" ++ [Effect.IOCancelPowerChange])
    | .str c =>
      let result := env.system c
      let result' : Bool := !env.WIFEXITED result || env.WEXITSTATUS result != 0
      (s, [Effect.system .allowsleep (some c)]
            ++ message s.args LOG_INFO "%s sleep: %s: exit=%s status=%d\n"
            ++ [if result' then Effect.IOCancelPowerChange else Effect.IOAllowPowerChange])
  | .kIOMessageSystemWillSleep =>
    ((s, (match s.args.sleepcommand with
          | some c => [Effect.system .sleep (some c)]
                        ++ message s.args LOG_INFO "sleep: %s: %d\n"
          | none => [])
        ++ [Effect.IOAllowPowerChange]))
  | .kIOMessageSystemWillNotSleep =>
    (s, match s.args.cantsleepcommand with
        | some c => [Effect.system .cantsleep (some c)]
                      ++ message s.args LOG_INFO "can't sleep: %s: %d\n"
        | none => message s.args LOG_INFO "can't sleep\n")
  | .kIOMessageSystemHasPoweredOn =>
    (setupIdleTimer s current,
      match s.args.wakeupcommand with
      | some c => [Effect.system .wakeup (some c)]
                    ++ message s.args LOG_INFO "wakeup: %s: %d\n"
      | none => [])
  | _ => (s, [])

/-! ## Display notifications -/

/-- The function `displayCallback`. The increment `state++` is taken in the
`unsigned int` that holds the enum, so it can leave the three enumerators. -/
def displayCallback (s : State) (msgType : IOMessage) : State × List Effect :=
  match msgType with
  | .kIOMessageDeviceWillPowerOff =>
    let state := (s.state + 1) % UINT_RANGE
    ({ s with state := state },
      if state = displayDimmed ∧ s.args.displaydimcommand ≠ none then
        [Effect.system .displaydim s.args.displaydimcommand]
          ++ message s.args LOG_INFO "displaydim: %s: %d\n"
      else if state = displayOff ∧ s.args.displaysleepcommand ≠ none then
        [Effect.system .displaysleep s.args.displaysleepcommand]
          ++ message s.args LOG_INFO "displaysleep: %s: %d\n"
      else [])
  | .kIOMessageDeviceHasPoweredOn =>
    ({ s with state := displayOn },
      if s.state = displayDimmed ∧ s.args.displayundimcommand ≠ none then
        [Effect.system .displayundim s.args.displayundimcommand]
          ++ message s.args LOG_INFO "displayundim: %s: %d\n"
      else if s.args.displaywakeupcommand ≠ none then
        [Effect.system .displaywakeup s.args.displaywakeupcommand]
          ++ message s.args LOG_INFO "displaywakeup: %s: %d\n"
      else [])
  | _ => (s, [])

/-- Delivery of display notifications one after the other: the final state
and the effects of all of them in order. -/
def runDisplay (s : State) : List IOMessage → State × List Effect
  | [] => (s, [])
  | m :: ms =>
    ((runDisplay (displayCallback s m).1 ms).1,
      (displayCallback s m).2 ++ (runDisplay (displayCallback s m).1 ms).2)

/-! ## Power source notifications -/

/-- A power source description: the value it holds for the key
`kIOPSPowerSourceStateKey`, if any. -/
structure PowerSourceDescription where
  powerSourceState : Option String
  deriving DecidableEq, Repr

/-- An entry of the power sources list: what `IOPSGetPowerSourceDescription`
returns for it. -/
structure PowerSource where
  description : Option PowerSourceDescription
  deriving DecidableEq, Repr

/-- The blob returned by `IOPSCopyPowerSourcesInfo`: what
`IOPSCopyPowerSourcesList` returns for it, a list of (possibly null) entries. -/
structure PowerSourcesInfo where
  powerSources : Option (List (Option PowerSource))
  deriving DecidableEq, Repr

/-- The function `getPowerSource`; `info` is what `IOPSCopyPowerSourcesInfo()`
returns at the call. -/
def getPowerSource (info : Option PowerSourcesInfo) : Int :=
  match info with
  | none => POWER_SOURCE_ERROR
  | some info =>
    match info.powerSources with
    | none => POWER_SOURCE_ERROR
    | some [] => POWER_SOURCE_ERROR
    | some (source :: _) =>
      match source with
      | none => POWER_SOURCE_ERROR
      | some source =>
        match source.description with
        | none => POWER_SOURCE_ERROR
        | some description =>
          match description.powerSourceState with
          | none => POWER_SOURCE_ERROR
          | some powerSourceState =>
            if powerSourceState = kIOPSACPowerValue then POWER_SOURCE_AC
            else POWER_SOURCE_BATTERY

/-- The function `powerSourceCallback`; `info` is what the power-source query
inside `getPowerSource` returns during this call. -/
def powerSourceCallback (s : State) (info : Option PowerSourcesInfo) :
    State × List Effect :=
  let powerSource := getPowerSource info
  if powerSource ≠ POWER_SOURCE_ERROR ∧ powerSource ≠ s.oldPowerSource then
    ({ s with oldPowerSource := powerSource },
      if powerSource = POWER_SOURCE_AC then
        match s.args.plugcommand with
        | some c => [Effect.system .plug (some c)]
                      ++ message s.args LOG_INFO "power plugged in: %s: %d\n"
        | none => []
      else
        match s.args.unplugcommand with
        | some c => [Effect.system .unplug (some c)]
                      ++ message s.args LOG_INFO "power unplugged: %s: %d\n"
        | none => [])
  else
    (s, [])

/-- Delivery of power-source notifications one after the other: the final
state and the effects of all of them in order. -/
def runPowerSource (s : State) : List (Option PowerSourcesInfo) → State × List Effect
  | [] => (s, [])
  | i :: is =>
    ((runPowerSource (powerSourceCallback s i).1 is).1,
      (powerSourceCallback s i).2 ++ (runPowerSource (powerSourceCallback s i).1 is).2)

/-- The most recent successful read among the given ones, if there is one. -/
def lastSuccessfulRead : List (Option PowerSourcesInfo) → Option Int
  | [] => none
  | i :: is =>
    match lastSuccessfulRead is with
    | some r => some r
    | none => if getPowerSource i ≠ POWER_SOURCE_ERROR then some (getPowerSource i) else none

/-! ## Idle timer and input activity -/

/-- The function `idleCallback`. -/
def idleCallback (s : State) : State × List Effect :=
  ({ s with args := { s.args with idleresume := true } },
    [Effect.system .idle s.args.idlecommand] ++ message s.args LOG_INFO "idle: %s: %d\n")

/-- The function `hidCallback`; `now` is the clock value read on entry and
`current` the clock value read by `setupTimer` when the idle timer is set up
at the end of the callback. The break test is
`args.breaklength && (now - timeOfLastCall) >= args.breaklength * TIMER_RESOLUTION`,
with the difference, the conversion of the `long` and the product computed in
`double` arithmetic. -/
def hidCallback (s : State) (now : Double) (current : Double) : State × List Effect :=
  let timeOfLastCall := if Double.eq s.timeOfLastCall 0 = true then now else s.timeOfLastCall
  let resume : List Effect :=
    if s.args.breaklength ≠ 0 ∧
        Double.ge (Double.sub now timeOfLastCall)
          (Double.mul (Double.ofLong s.args.breaklength) TIMER_RESOLUTION) = true then
      [Effect.system .resume s.args.resumecommand]
        ++ message s.args LOG_INFO "resume: %s: %d\n"
    else []
  if s.args.idleresume = true ∧ s.args.idleresumecommand ≠ none then
    (setupIdleTimer
        { s with args := { s.args with idleresume := false }, timeOfLastCall := now } current,
      resume ++ [Effect.system .idleresume s.args.idleresumecommand]
        ++ message s.args LOG_INFO "idleresume: %s: %d\n")
  else
    (setupIdleTimer { s with timeOfLastCall := now } current, resume)

/-! ## Configuration: the run of a function that can end the process -/

/-- How a run of a configuration function ends. -/
inductive Outcome (α : Type) where
  /-- the function returns -/
  | returns (value : α)
  /-- the process ends in `exit(status)` -/
  | exits (status : Int)
  /-- `free` or a dereference is applied to a pointer that is not valid for it -/
  | undefined
  /-- config files include one another more deeply than the budget of the run -/
  | outOfFuel
  deriving DecidableEq, Repr

/-- The externally visible actions of the configuration functions. -/
inductive ConfigEffect where
  /-- what `message` writes -/
  | effect (e : Effect)
  /-- a call of `setstr`, with both arguments -/
  | setstr (oldstr : CharPtr) (newstr : Option String)
  /-- the call `unlink(args.pidfile)` -/
  | unlink (pidfile : String)
  /-- the process id written to the pidfile -/
  | pidWritten (pidfile : String)
  deriving DecidableEq, Repr

/-- A run: the actions in program order and how the run ends. -/
structure Run (α : Type) where
  trace : List ConfigEffect
  outcome : Outcome α
  deriving DecidableEq, Repr

/-- A run that returns at once. -/
def Run.pure {α : Type} (value : α) : Run α := ⟨[], .returns value⟩

/-- Sequencing: the second part runs only if the first returns. -/
def Run.bind {α β : Type} (r : Run α) (f : α → Run β) : Run β :=
  match r.outcome with
  | .returns value => ⟨r.trace ++ (f value).trace, (f value).outcome⟩
  | .exits status => ⟨r.trace, .exits status⟩
  | .undefined => ⟨r.trace, .undefined⟩
  | .outOfFuel => ⟨r.trace, .outOfFuel⟩

instance : Monad Run where
  pure := Run.pure
  bind := Run.bind

/-- The function `exit`. -/
def exit {α : Type} (status : Int) : Run α := ⟨[], .exits status⟩

/-- A run that stops in undefined behaviour. -/
def Run.undefined {α : Type} : Run α := ⟨[], .undefined⟩

/-- A run that only performs the given actions. -/
def Run.emit (es : List ConfigEffect) : Run Unit := ⟨es, .returns ()⟩

/-- The function `message`, called from a configuration function. -/
def Run.message (a : Args) (priority : Nat) (msg : String) : Run Unit :=
  Run.emit ((Sleepwatcher.message a priority msg).map ConfigEffect.effect)

/-- What the configuration functions need from the C library and the system. -/
structure Host where
  /-- `basename` -/
  basename : String → String
  /-- the successive results `(c, optarg)` of `getopt_long` on the arguments,
  up to its `-1` -/
  getopt_long : List String → List (Char × Option String)
  /-- `optind` after the last `getopt_long` call -/
  optind : List String → Nat
  /-- the contents of a file that `fopen(configfile, "r")` opens, `none` if it
  cannot be opened -/
  fopen : String → Option (List Char)
  /-- whether `fopen(pidfile, "w")` succeeds -/
  canWrite : String → Bool
  /-- the result of `sleepImmediately()` -/
  sleepImmediately : Int
  /-- the indeterminate initial contents of the local `buf` of `readConfig` -/
  stack : List Char

/-! ## Configuration: strings and numbers -/

/-- A `char *` field that holds `NULL` or a string, as a pointer value. -/
def CharPtr.ofOption : Option String → CharPtr
  | none => .NULL
  | some s => .str s

/-- The function `setstr`: frees `oldstr` unless it is null and returns a copy
of `newstr`. The sentinel `DENY_SLEEP` is not a pointer `free` accepts. -/
def setstr (oldstr : CharPtr) (newstr : Option String) : Run (Option String) :=
  match oldstr with
  | .DENY_SLEEP => ⟨[.setstr oldstr newstr], .undefined⟩
  | _ => ⟨[.setstr oldstr newstr], .returns newstr⟩

/-- Number of values of a `long int`. -/
def ULONG_RANGE : Int := 2 ^ 64

/-- The `LONG_MAX` constant. -/
def LONG_MAX : Int := 2 ^ 63 - 1

/-- A mathematical integer as the `long int` that two's complement arithmetic
leaves. -/
def wrapLong (n : Int) : Int := (n + 2 ^ 63) % ULONG_RANGE - 2 ^ 63

/-- The function `isdigit` in the C locale. -/
def isdigit (c : Char) : Bool := '0'.toNat ≤ c.toNat && c.toNat ≤ '9'.toNat

/-- The function `isblank` in the C locale. -/
def isblank (c : Char) : Bool := c = ' ' || c = '\t'

/-- The `while` loop of `scanTime`: the value of `t` and the rest of the
string at `p` when the loop ends. The end of the list is the terminator. -/
def scanDigits : Int → List Char → Int × List Char
  | t, [] => (t, [])
  | t, c :: p =>
    if isdigit c then scanDigits (wrapLong (10 * t + ((c.toNat : Int) - ('0'.toNat : Int)))) p
    else (t, c :: p)

/-- The function `scanTime`. -/
def scanTime (a : Args) (arg : String) (msg : String) : Run Int :=
  if (scanDigits 0 arg.toList).2 ≠ [] then do
    Run.message a LOG_ERR msg
    return -1
  else
    return (scanDigits 0 arg.toList).1

/-- The function `checkTimeoutCommand` on the pair `(*timeout, *command)`. -/
def checkTimeoutCommand (a : Args) (timeout : Int) (command : Option String)
    (msgCommandWithoutTimeout msgTimeoutWithoutCommand : String) :
    Run (Int × Option String) := do
  let (timeout, command) ←
    if timeout = -1 then do
      let command ← setstr (CharPtr.ofOption command) none
      pure ((0 : Int), command)
    else pure (timeout, command)
  let command ←
    if timeout = 0 ∧ command ≠ none then do
      Run.message a LOG_ERR msgCommandWithoutTimeout
      setstr (CharPtr.ofOption command) none
    else pure command
  let timeout ←
    if timeout ≠ 0 ∧ command = none then do
      Run.message a LOG_ERR msgTimeoutWithoutCommand
      pure (0 : Int)
    else pure timeout
  return (timeout, command)

/-- The function `writePidFile`. -/
def writePidFile (host : Host) (a : Args) (pidfile : Option String) : Run Args := do
  match a.pidfile with
  | some old => Run.emit [.unlink old]
  | none => pure ()
  let p ← setstr (CharPtr.ofOption a.pidfile) pidfile
  let a := { a with pidfile := p }
  match a.pidfile, pidfile with
  | some _, some name =>
    if host.canWrite name then Run.emit [.pidWritten name]
    else Run.message a LOG_ERR "can't write pidfile %s\n"
  | _, _ => pure ()
  return a

/-! ## Configuration: options -/

/-- The values of the `has_arg` member of `struct option`. -/
inductive HasArg where
  | no_argument
  | required_argument
  | optional_argument
  deriving DecidableEq, Repr

/-- An entry of `longopts` (a `struct option`; `flag` is `NULL` in all of them). -/
structure LongOption where
  name : String
  has_arg : HasArg
  val : Char
  deriving DecidableEq, Repr

/-- The table `longopts`, without its terminating entry. -/
def longopts : List LongOption :=
  [ ⟨"now", .no_argument, 'n'⟩,
    ⟨"version", .no_argument, 'v'⟩,
    ⟨"verbose", .no_argument, 'V'⟩,
    ⟨"daemon", .no_argument, 'd'⟩,
    ⟨"getidletime", .no_argument, 'g'⟩,
    ⟨"config", .required_argument, 'f'⟩,
    ⟨"pidfile", .required_argument, 'p'⟩,
    ⟨"allowsleep", .optional_argument, 'a'⟩,
    ⟨"cantsleep", .required_argument, 'c'⟩,
    ⟨"sleep", .required_argument, 's'⟩,
    ⟨"wakeup", .required_argument, 'w'⟩,
    ⟨"displaydim", .required_argument, 'D'⟩,
    ⟨"displayundim", .required_argument, 'E'⟩,
    ⟨"displaysleep", .required_argument, 'S'⟩,
    ⟨"displaywakeup", .required_argument, 'W'⟩,
    ⟨"timeout", .required_argument, 't'⟩,
    ⟨"idleresume", .required_argument, 'R'⟩,
    ⟨"idle", .required_argument, 'i'⟩,
    ⟨"break", .required_argument, 'b'⟩,
    ⟨"resume", .required_argument, 'r'⟩,
    ⟨"plug", .required_argument, 'P'⟩,
    ⟨"unplug", .required_argument, 'U'⟩ ]

/-- The character that terminates a C string. -/
def NUL : Char := Char.ofNat 0

/-- The C string that starts at the beginning of a piece of memory: the
characters before the first `NUL`. -/
def cstr (buf : List Char) : List Char := buf.takeWhile (· ≠ NUL)

/-- The characters `fgets` takes from a stream when it may store at most `n`
of them, and the rest of the stream: it stops after a newline. -/
def fgetsChars : Nat → List Char → List Char × List Char
  | 0, stream => ([], stream)
  | _ + 1, [] => ([], [])
  | n + 1, c :: stream =>
    if c = '\n' then ([c], stream)
    else (c :: (fgetsChars n stream).1, (fgetsChars n stream).2)

/-- The statement `if ((p = strchr(buf, '\n'))) *p = '\0';` of `readConfig`. -/
def chopNewline : List Char → List Char
  | [] => []
  | c :: buf =>
    if c = NUL then c :: buf
    else if c = '\n' then NUL :: buf
    else c :: chopNewline buf

/-- The string that the four loops of `readConfig` leave at the beginning of
`buf`: the blanks before `=` and right after it are removed. -/
def squeezed (buf : List Char) : List Char :=
  ((cstr buf).takeWhile (· ≠ '=')).filter (fun c => !isblank c) ++
    match (cstr buf).dropWhile (· ≠ '=') with
    | [] => []
    | eq :: arg => eq :: arg.dropWhile isblank

/-- The contents of `buf` after those loops: the squeezed string and its
terminator, followed by what was there before. -/
def squeeze (buf : List Char) : List Char :=
  squeezed buf ++ [NUL] ++ buf.drop ((squeezed buf).length + 1)

/-- The `while (fgets ...)` loop of `readConfig`, at most `lines` rounds of
it; `stream` is what is left to read of the file and `buf` what the local
buffer holds. The parameter `setOption` is the forward-declared callee. -/
def readConfigLoop (setOption : Args → Char → Option String → Run Args) :
    Nat → List Char → List Char → Args → Run Args
  | 0, _, _, a => pure a
  | lines + 1, stream, buf, a =>
    if (fgetsChars 1023 stream).1 = [] then pure a
    else
      let buf := (fgetsChars 1023 stream).1 ++ [NUL]
        ++ buf.drop ((fgetsChars 1023 stream).1.length + 1)
      if buf.head? = some '#' ∨ buf.head? = some ';' then
        readConfigLoop setOption lines (fgetsChars 1023 stream).2 buf a
      else
        let buf := squeeze (chopNewline buf)
        match longopts.find? (fun op => op.name.toList.isPrefixOf (cstr buf)) with
        | some op => do
          if (op.has_arg = .no_argument ∧ buf.getD op.name.length NUL ≠ NUL) ∨
              (op.has_arg ≠ .no_argument ∧ buf.getD op.name.length NUL ≠ '=') then
            Run.message a LOG_ERR "malformed parameter '%s' in config file %s\n"
          let a ← setOption a op.val (some (String.mk (cstr (buf.drop (op.name.length + 1)))))
          readConfigLoop setOption lines (fgetsChars 1023 stream).2 buf a
        | none => do
          Run.message a LOG_ERR "unknown parameter '%s' in config file %s\n"
          readConfigLoop setOption lines (fgetsChars 1023 stream).2 buf a

/-- The function `readConfig`. -/
def readConfig (setOption : Args → Char → Option String → Run Args) (host : Host)
    (a : Args) (configfile : String) : Run Args :=
  match host.fopen configfile with
  | none => do
    Run.message a LOG_ERR "can't read config file %s\n"
    return a
  | some stream => readConfigLoop setOption stream.length stream host.stack a

/-- The body of the function `setOption`; `config` stands for the call
`readConfig (optarg)`, which leads back into `setOption`. A null `optarg` is
not valid where the code dereferences it (`fopen`, `scanTime`). -/
def setOptionBody (host : Host) (config : Args → String → Run Args) (a : Args) (c : Char)
    (optarg : Option String) : Run Args :=
  if c = 'n' then exit host.sleepImmediately
  else if c = 'v' then exit 2
  else if c = 'V' then pure { a with verbose := true }
  else if c = 'd' then pure { a with daemon := true }
  else if c = 'g' then exit 0
  else if c = 'f' then
    match optarg with
    | none => Run.undefined
    | some configfile => config a configfile
  else if c = 'p' then writePidFile host a optarg
  else if c = 'a' then do
    let old := if a.allowsleepcommand = .DENY_SLEEP then .NULL else a.allowsleepcommand
    let p ← setstr old optarg
    match p with
    | none => pure { a with allowsleepcommand := .DENY_SLEEP }
    | some command => pure { a with allowsleepcommand := .str command }
  else if c = 'c' then do
    let p ← setstr (.ofOption a.cantsleepcommand) optarg
    pure { a with cantsleepcommand := p }
  else if c = 's' then do
    let p ← setstr (.ofOption a.sleepcommand) optarg
    pure { a with sleepcommand := p }
  else if c = 'w' then do
    let p ← setstr (.ofOption a.wakeupcommand) optarg
    pure { a with wakeupcommand := p }
  else if c = 'D' then do
    let p ← setstr (.ofOption a.displaydimcommand) optarg
    pure { a with displaydimcommand := p }
  else if c = 'E' then do
    let p ← setstr (.ofOption a.displayundimcommand) optarg
    pure { a with displayundimcommand := p }
  else if c = 'S' then do
    let p ← setstr (.ofOption a.displaysleepcommand) optarg
    pure { a with displaysleepcommand := p }
  else if c = 'W' then do
    let p ← setstr (.ofOption a.displaywakeupcommand) optarg
    pure { a with displaywakeupcommand := p }
  else if c = 't' then
    match optarg with
    | none => Run.undefined
    | some arg => do
      let t ← scanTime a arg "invalid digit(s) in timeout argument '%s'\n"
      pure { a with idletimeout := t }
  else if c = 'i' then do
    let p ← setstr (.ofOption a.idlecommand) optarg
    pure { a with idlecommand := p }
  else if c = 'R' then do
    let a := { a with idleresume := false }
    let p ← setstr (.ofOption a.idleresumecommand) optarg
    pure { a with idleresumecommand := p }
  else if c = 'b' then
    match optarg with
    | none => Run.undefined
    | some arg => do
      let t ← scanTime a arg "invalid digit(s) in pause argument '%s'\n"
      pure { a with breaklength := t }
  else if c = 'r' then do
    let p ← setstr (.ofOption a.resumecommand) optarg
    pure { a with resumecommand := p }
  else if c = 'P' then do
    let p ← setstr (.ofOption a.plugcommand) optarg
    pure { a with plugcommand := p }
  else if c = 'U' then do
    let p ← setstr (.ofOption a.unplugcommand) optarg
    pure { a with unplugcommand := p }
  else exit 2

/-- The function `setOption`; `fuel` bounds how deeply config files may
include one another through the option `config`. -/
def setOption (host : Host) : Nat → Args → Char → Option String → Run Args
  | 0 => setOptionBody host (fun _ _ => ⟨[], .outOfFuel⟩)
  | fuel + 1 => setOptionBody host (fun a configfile =>
      readConfig (setOption host fuel) host a configfile)

/-! ## Configuration: arguments and reload -/

/-- The function `usage`: prints the help text and ends the process. -/
def usage : Run Unit := exit 2

/-- The first part of `parseArgs`, up to the call `writePidFile (NULL)`:
every field of `args` except `pidfile` is assigned, the strings through
`setstr` in the order of the source. -/
def resetArgs (host : Host) (a : Args) (argv : List String) : Run Args := do
  let allowsleepcommand ← setstr a.allowsleepcommand none
  let cantsleepcommand ← setstr (.ofOption a.cantsleepcommand) none
  let sleepcommand ← setstr (.ofOption a.sleepcommand) none
  let wakeupcommand ← setstr (.ofOption a.wakeupcommand) none
  let displaydimcommand ← setstr (.ofOption a.displaydimcommand) none
  let displayundimcommand ← setstr (.ofOption a.displayundimcommand) none
  let displaysleepcommand ← setstr (.ofOption a.displaysleepcommand) none
  let displaywakeupcommand ← setstr (.ofOption a.displaywakeupcommand) none
  let idlecommand ← setstr (.ofOption a.idlecommand) none
  let idleresumecommand ← setstr (.ofOption a.idleresumecommand) none
  let resumecommand ← setstr (.ofOption a.resumecommand) none
  let plugcommand ← setstr (.ofOption a.plugcommand) none
  let unplugcommand ← setstr (.ofOption a.unplugcommand) none
  return { argv := argv, progname := host.basename (argv.headD ""), verbose := false,
           daemon := false, pidfile := a.pidfile,
           allowsleepcommand := .ofOption allowsleepcommand,
           cantsleepcommand := cantsleepcommand, sleepcommand := sleepcommand,
           wakeupcommand := wakeupcommand, displaydimcommand := displaydimcommand,
           displayundimcommand := displayundimcommand,
           displaysleepcommand := displaysleepcommand,
           displaywakeupcommand := displaywakeupcommand,
           idletimeout := 0, idlecommand := idlecommand, idleresume := false,
           idleresumecommand := idleresumecommand, breaklength := 0,
           resumecommand := resumecommand, plugcommand := plugcommand,
           unplugcommand := unplugcommand }

/-- The last part of `parseArgs`, from the first `checkTimeoutCommand` on. -/
def checkArgs (a : Args) : Run Args := do
  let idle ← checkTimeoutCommand a a.idletimeout a.idlecommand
    "idlecommand without timeout ignored\n" "timeout without idlecommand ignored\n"
  let a := { a with idletimeout := idle.1, idlecommand := idle.2 }
  let resume ← checkTimeoutCommand a a.breaklength a.resumecommand
    "resumecommand without break ignored\n" "break without resumecommand ignored\n"
  let a := { a with breaklength := resume.1, resumecommand := resume.2 }
  if a.idlecommand = none ∧ a.idleresumecommand ≠ none then
    Run.message a LOG_ERR "idleresumecommand without idlecommand ignored\n"
  if a.allowsleepcommand = .NULL ∧ a.cantsleepcommand = none ∧ a.sleepcommand = none ∧
      a.wakeupcommand = none ∧ a.displaydimcommand = none ∧ a.displayundimcommand = none ∧
      a.displaysleepcommand = none ∧ a.displaywakeupcommand = none ∧ a.idlecommand = none ∧
      a.resumecommand = none ∧ a.plugcommand = none ∧ a.unplugcommand = none then
    Run.message a LOG_ERR "no useful options set\n"
  return a

/-- The function `parseArgs`, called while the global `args` is `a`;
`argc` is the length of `argv`. -/
def parseArgs (host : Host) (fuel : Nat) (a : Args) (argv : List String) : Run Args := do
  let a ← resetArgs host a argv
  let a ← writePidFile host a none
  if argv.length = 1 then usage
  let a ← (host.getopt_long argv).foldlM (fun a o => setOption host fuel a o.1 o.2) a
  if argv.length ≠ host.optind argv then
    Run.message a LOG_ERR "superfluous arguments ignored: \"%s ...\"\n"
  checkArgs a

/-- The signals `main` installs `signalCallback` for, and any other. -/
inductive Signal where
  | SIGHUP
  | SIGTERM
  | SIGINT
  | other (sig : Nat)
  deriving DecidableEq, Repr

/-- The function `signalCallback`; `current` is the clock value read by
`setupIdleTimer`. -/
def signalCallback (host : Host) (fuel : Nat) (s : State) (current : Double) (sig : Signal) :
    Run State :=
  match sig with
  | .SIGHUP => do
    Run.message s.args LOG_INFO "got SIGHUP - reconfiguring\n"
    let a ← parseArgs host fuel s.args s.args.argv
    return setupIdleTimer { s with args := a } current
  | .SIGTERM => do
    Run.message s.args LOG_INFO "got %s - exiting\n"
    let _ ← writePidFile host s.args none
    exit 0
  | .SIGINT => do
    Run.message s.args LOG_INFO "got %s - exiting\n"
    let _ ← writePidFile host s.args none
    exit 0
  | .other _ => pure s

/-- The global `args` before `main` calls `parseArgs`: a zero-initialised
static object. -/
def zeroArgs : Args :=
  { argv := [], progname := "", verbose := false, daemon := false,
    pidfile := none, allowsleepcommand := .NULL, cantsleepcommand := none,
    sleepcommand := none, wakeupcommand := none, displaydimcommand := none,
    displayundimcommand := none, displaysleepcommand := none, displaywakeupcommand := none,
    idletimeout := 0, idlecommand := none, idleresume := false, idleresumecommand := none,
    breaklength := 0, resumecommand := none, plugcommand := none, unplugcommand := none }

/-- A host that parses nothing out of the arguments but the given options,
has the given config file contents under the name `conf` and no other file. -/
def hostWith (options : List (Char × Option String)) (conf : String) : Host :=
  { basename := fun name => name
    getopt_long := fun _ => options
    optind := fun argv => argv.length
    fopen := fun name => if name = "conf" then some conf.toList else none
    canWrite := fun _ => true
    sleepImmediately := 0
    stack := [] }

/-! ## Configuration: reading a run -/

/-- The value a run returns, if it returns. -/
def Outcome.value? {α : Type} : Outcome α → Option α
  | .returns value => some value
  | _ => none

/-- Every value the run can return satisfies `P`. -/
def Run.Ensures {α : Type} (r : Run α) (P : α → Prop) : Prop :=
  ∀ value, r.outcome = .returns value → P value

/-- The value of a decimal digit character. -/
def digitValue (c : Char) : Int := (c.toNat : Int) - ('0'.toNat : Int)

/-- The decimal value of a string of digits, most significant digit first:
the digit at distance `k` from the end counts `10 ^ k` times. -/
def decimalValue : List Char → Int
  | [] => 0
  | c :: cs => digitValue c * 10 ^ cs.length + decimalValue cs

/-- What `checkTimeoutCommand` leaves of a pair `(timeout, command)`. -/
def checkedPair (timeout : Int) (command : Option String) : Int × Option String :=
  if timeout = -1 ∨ timeout = 0 ∨ command = none then (0, none) else (timeout, command)

/-! ## Startup values -/

/-- The `args` that `parseArgs` establishes before it reads any option. -/
def noArgs : Args :=
  { argv := ["sleepwatcher"], progname := "sleepwatcher", verbose := false, daemon := false,
    pidfile := none, allowsleepcommand := .NULL, cantsleepcommand := none,
    sleepcommand := none, wakeupcommand := none, displaydimcommand := none,
    displayundimcommand := none, displaysleepcommand := none, displaywakeupcommand := none,
    idletimeout := 0, idlecommand := none, idleresume := false, idleresumecommand := none,
    breaklength := 0, resumecommand := none, plugcommand := none, unplugcommand := none }

/-- The `args` that `parseArgs` has established when it starts to read the
options of `argv`. -/
def clearedArgs (host : Host) (argv : List String) : Args :=
  { noArgs with argv := argv, progname := host.basename (argv.headD "") }

/-- Arguments of a run with an idle timeout of 50 timer units, an idle and an
idle-resume command. -/
def idleArgv : List String := ["sleepwatcher", "-t", "50", "-i", "idle", "-R", "idleresume"]

/-- A host on which `getopt_long` reads the options of `idleArgv`. -/
def idleHost : Host :=
  hostWith [('t', some "50"), ('i', some "idle"), ('R', some "idleresume")] ""

/-- The configuration that `parseArgs` builds from `idleArgv`. -/
def parsedIdleArgs : Args :=
  { clearedArgs idleHost idleArgv with
    idletimeout := 50, idlecommand := some "idle", idleresumecommand := some "idleresume" }

/-- Arguments of a run that denies sleep unconditionally. -/
def denyArgv : List String := ["sleepwatcher", "-a"]

/-- A host on which `getopt_long` reads the option of `denyArgv`. -/
def denyHost : Host := hostWith [('a', none)] ""

/-- The configuration that `parseArgs` builds from `denyArgv`. -/
def parsedDenyArgs : Args :=
  { clearedArgs denyHost denyArgv with allowsleepcommand := .DENY_SLEEP }

/-- Arguments of a run that takes its configuration from the file `conf`. -/
def confArgv : List String := ["sleepwatcher", "-f", "conf"]

/-- A host on which `getopt_long` reads the option of `confArgv` and the file
`conf` has the given contents. -/
def confHost (conf : String) : Host := hostWith [('f', some "conf")] conf

/-- The configuration that `parseArgs` builds from `confArgv` when `conf` sets
a timeout of 50 and the idle command `idle`. -/
def parsedConfArgs : Args :=
  { clearedArgs (confHost "") confArgv with idletimeout := 50, idlecommand := some "idle" }

/-- The state at startup with the given `args`: every `static` local has its
initialiser. -/
def startup (a : Args) : State :=
  { args := a, idleTimer := none, timeOfLastCall := 0, state := displayOn,
    oldPowerSource := POWER_SOURCE_ERROR }

/-- An environment with the usual wait-status encoding (exit status in bits
8 to 15, termination signal in bits 0 to 6) in which every command exits
with the given status. -/
def exitsWith (status : Int) : Env :=
  { system := fun _ => status * 256
    WIFEXITED := fun w => w % 128 == 0
    WEXITSTATUS := fun w => (w / 256) % 256 }

/-- A power-source query that answers with one source in the given state. -/
def sourceInState (powerSourceState : String) : Option PowerSourcesInfo :=
  some { powerSources := some [some { description := some { powerSourceState := some powerSourceState } }] }

/-- Arguments with all four display commands configured. -/
def displayArgs : Args :=
  { noArgs with displaydimcommand := some "dim", displayundimcommand := some "undim",
                displaysleepcommand := some "sleep", displaywakeupcommand := some "wakeup" }

/-- Arguments with `plugcommand` and `unplugcommand` configured. -/
def plugArgs : Args :=
  { noArgs with plugcommand := some "plug", unplugcommand := some "unplug" }

/-- A successful power-source query that reports battery power. -/
def onBattery : Option PowerSourcesInfo := sourceInState "Battery Power"

/-- A successful power-source query that reports AC power. -/
def onAC : Option PowerSourcesInfo := sourceInState "AC Power"

/-- Arguments with an idle timeout of 50 timer units and the idle commands
configured, the idle-resume flag set as `idleCallback` leaves it. -/
def idleArgs : Args :=
  { noArgs with idletimeout := 50, idlecommand := some "idle", idleresume := true,
                idleresumecommand := some "idleresume" }

/-- Arguments of a run whose break length, `2 ^ 64 - 5`, does not fit a
`long`, with a resume command. -/
def overflowArgv : List String :=
  ["sleepwatcher", "-b", "18446744073709551611", "-r", "resume"]

/-- A host on which `getopt_long` reads the options of `overflowArgv`. -/
def overflowHost : Host :=
  hostWith [('b', some "18446744073709551611"), ('r', some "resume")] ""

/-- The configuration that `parseArgs` builds from `overflowArgv`. -/
def parsedOverflowArgs : Args :=
  { clearedArgs overflowHost overflowArgv with breaklength := -5, resumecommand := some "resume" }

/-! ## Reading a trace -/

/-- The `system()` calls in a trace, in order. -/
def commands (es : List Effect) : List (Command × Option String) :=
  es.filterMap fun e =>
    match e with
    | .system which cmd => some (which, cmd)
    | _ => none

/-- The replies to a sleep request in a trace, in order. -/
def replies (es : List Effect) : List Effect :=
  es.filter fun e => e = Effect.IOAllowPowerChange ∨ e = Effect.IOCancelPowerChange

/-- The `system()` calls in a trace made for one `args` field, in order. -/
def commandsOf (which : Command) (es : List Effect) : List (Command × Option String) :=
  (commands es).filter fun c => c.1 = which

/-! ## Lemmas on traces -/

theorem commands_message (a : Args) (priority : Nat) (msg : String) :
    commands (message a priority msg) = [] := by
  unfold message commands
  split <;> simp

theorem replies_message (a : Args) (priority : Nat) (msg : String) :
    replies (message a priority msg) = [] := by
  unfold message replies
  split <;> simp

theorem commands_append (xs ys : List Effect) :
    commands (xs ++ ys) = commands xs ++ commands ys := by
  simp [commands, List.filterMap_append]

theorem replies_append (xs ys : List Effect) :
    replies (xs ++ ys) = replies xs ++ replies ys := by
  simp [replies, List.filter_append]

/-! ## The sleep veto -/

/-- Claim C1: handling a `kIOMessageCanSystemSleep` notification sends exactly
one reply and leaves the state alone. With `allowsleepcommand` unset the reply
is allow and no command is run; with `DENY_SLEEP` the reply is deny and no
command is run; with a command `c` the only command run is `c`, once, and the
reply is allow exactly when the wait status of `c` says it exited
(`WIFEXITED`) with exit status (`WEXITSTATUS`) 0, and deny otherwise. -/
theorem canSystemSleep_reply (env : Env) (s : State) (current : Double) :
    (powerCallback env s current .kIOMessageCanSystemSleep).1 = s ∧
    (replies (powerCallback env s current .kIOMessageCanSystemSleep).2).length = 1 ∧
    match s.args.allowsleepcommand with
    | .NULL =>
      replies (powerCallback env s current .kIOMessageCanSystemSleep).2
          = [Effect.IOAllowPowerChange] ∧
        commands (powerCallback env s current .kIOMessageCanSystemSleep).2 = []
    | .DENY_SLEEP =>
      replies (powerCallback env s current .kIOMessageCanSystemSleep).2
          = [Effect.IOCancelPowerChange] ∧
        commands (powerCallback env s current .kIOMessageCanSystemSleep).2 = []
    | .str c =>
      commands (powerCallback env s current .kIOMessageCanSystemSleep).2
          = [(Command.allowsleep, some c)] ∧
        (replies (powerCallback env s current .kIOMessageCanSystemSleep).2
            = [Effect.IOAllowPowerChange] ↔
          (env.WIFEXITED (env.system c) = true ∧ env.WEXITSTATUS (env.system c) = 0)) ∧
        (replies (powerCallback env s current .kIOMessageCanSystemSleep).2
            = [Effect.IOCancelPowerChange] ↔
          ¬ (env.WIFEXITED (env.system c) = true ∧ env.WEXITSTATUS (env.system c) = 0)) := by
  unfold powerCallback
  cases h : s.args.allowsleepcommand with
  | NULL =>
    simp only [replies_append, commands_append, replies_message, commands_message]
    simp [replies, commands]
  | DENY_SLEEP =>
    simp only [replies_append, commands_append, replies_message, commands_message]
    simp [replies, commands]
  | str c =>
    simp only [replies_append, commands_append, replies_message, commands_message]
    by_cases h1 : env.WIFEXITED (env.system c) = true <;>
      by_cases h2 : env.WEXITSTATUS (env.system c) = 0 <;>
      simp [replies, commands, h1, h2]

/-- Witness for `canSystemSleep_reply`: a command that exits with status 0 is
answered with allow, one that exits with status 1 with deny. -/
theorem canSystemSleep_reply_witness :
    replies (powerCallback (exitsWith 0)
        (startup { noArgs with allowsleepcommand := .str "veto" })
        0 .kIOMessageCanSystemSleep).2 = [Effect.IOAllowPowerChange] ∧
    replies (powerCallback (exitsWith 1)
        (startup { noArgs with allowsleepcommand := .str "veto" })
        0 .kIOMessageCanSystemSleep).2 = [Effect.IOCancelPowerChange] :=
  ⟨(canSystemSleep_reply (exitsWith 0)
      (startup { noArgs with allowsleepcommand := .str "veto" }) 0).2.2.2.1.mpr (by decide),
    (canSystemSleep_reply (exitsWith 1)
      (startup { noArgs with allowsleepcommand := .str "veto" }) 0).2.2.2.2.mpr (by decide)⟩

/-- Claim C2, counterexample: `allowsleepcommand` is a command that exits with
status 1 and `cantsleepcommand` is configured; handling the
`kIOMessageCanSystemSleep` notification replies deny and runs
`allowsleepcommand` only, `cantsleepcommand` is not run. -/
theorem canSystemSleep_deny_without_cantsleep :
    replies (powerCallback (exitsWith 1)
        (startup { noArgs with allowsleepcommand := .str "veto", cantsleepcommand := some "cant" })
        0 .kIOMessageCanSystemSleep).2 = [Effect.IOCancelPowerChange] ∧
    commands (powerCallback (exitsWith 1)
        (startup { noArgs with allowsleepcommand := .str "veto", cantsleepcommand := some "cant" })
        0 .kIOMessageCanSystemSleep).2 = [(Command.allowsleep, some "veto")] := by
  decide

/-- Claim C2, amended: handling a `kIOMessageCanSystemSleep` notification never
runs `cantsleepcommand`, whatever the reply; `cantsleepcommand` is run by the
handling of a `kIOMessageSystemWillNotSleep` notification, once if it is
configured, and that handling runs nothing else. -/
theorem cantsleep_runs_on_willNotSleep (env : Env) (s : State) (current : Double) :
    (∀ cmd, (Command.cantsleep, cmd) ∉
        commands (powerCallback env s current .kIOMessageCanSystemSleep).2) ∧
    commands (powerCallback env s current .kIOMessageSystemWillNotSleep).2 =
      match s.args.cantsleepcommand with
      | some c => [(Command.cantsleep, some c)]
      | none => [] := by
  constructor
  · intro cmd
    unfold powerCallback
    cases h : s.args.allowsleepcommand with
    | NULL =>
      simp only [commands_append, commands_message]
      simp [commands]
    | DENY_SLEEP =>
      simp only [commands_append, commands_message]
      simp [commands]
    | str c =>
      simp only [commands_append, commands_message]
      cases hr : (!env.WIFEXITED (env.system c) || env.WEXITSTATUS (env.system c) != 0) <;>
        simp [commands]
  · unfold powerCallback
    cases h : s.args.cantsleepcommand with
    | none => simp only [commands_message]
    | some c =>
      simp only [commands_append, commands_message]
      simp [commands]

/-! ## The display state machine -/

theorem displayCallback_willPowerOff_past_off (s : State)
    (h2 : displayOff ≤ s.state) (hlt : s.state + 1 < UINT_RANGE) :
    displayCallback s .kIOMessageDeviceWillPowerOff = ({ s with state := s.state + 1 }, []) := by
  have hmod : (s.state + 1) % UINT_RANGE = s.state + 1 := Nat.mod_eq_of_lt hlt
  have h1 : s.state + 1 ≠ displayDimmed := by
    unfold displayOff at h2; unfold displayDimmed; omega
  have h3 : s.state + 1 ≠ displayOff := by
    unfold displayOff at h2 ⊢; omega
  simp [displayCallback, hmod, h1, h3]

theorem runDisplay_willPowerOff_past_off (n : Nat) :
    ∀ s : State, displayOff ≤ s.state → s.state + n < UINT_RANGE →
      runDisplay s (List.replicate n .kIOMessageDeviceWillPowerOff)
        = ({ s with state := s.state + n }, []) := by
  induction n with
  | zero => intro s _ _; simp [runDisplay]
  | succ n ih =>
    intro s h2 hlt
    have hstep := displayCallback_willPowerOff_past_off s h2 (by omega)
    have hrec := ih { s with state := s.state + 1 } (by simp only; omega) (by simp only; omega)
    simp only [List.replicate_succ, runDisplay, hstep, hrec, List.append_nil]
    simp [Nat.add_assoc, Nat.add_comm 1 n]

/-- Claim C3, counterexample: one `kIOMessageDeviceWillPowerOff` delivered
while the state is `displayOff` runs no command but leaves the state at 3,
which is not `displayOff`. -/
theorem willPowerOff_leaves_off :
    (displayCallback { startup noArgs with state := displayOff }
        .kIOMessageDeviceWillPowerOff).1.state = 3 ∧
    (displayCallback { startup noArgs with state := displayOff }
        .kIOMessageDeviceWillPowerOff).1.state ≠ displayOff ∧
    (displayCallback { startup noArgs with state := displayOff }
        .kIOMessageDeviceWillPowerOff).2 = [] := by
  decide

/-- Claim C3, amended: for every number `n` with `1 ≤ n < 2^32 - 3` of
consecutive `kIOMessageDeviceWillPowerOff` notifications delivered while the
state is `displayOff`, nothing is run or written and only the state counter
changes: it is `displayOff + n` afterwards, past `displayOff`. A following
`kIOMessageDeviceWillPowerOff` again runs nothing, as from `displayOff`, and a
following `kIOMessageDeviceHasPoweredOn` has exactly the result it has from
`displayOff` (same commands, state `displayOn`). -/
theorem willPowerOff_repeated_from_off (s : State) (n : Nat)
    (hoff : s.state = displayOff) (h1 : 1 ≤ n) (hn : n < UINT_RANGE - 3) :
    runDisplay s (List.replicate n .kIOMessageDeviceWillPowerOff)
      = ({ s with state := displayOff + n }, []) ∧
    (runDisplay s (List.replicate n .kIOMessageDeviceWillPowerOff)).1.state ≠ displayOff ∧
    (displayCallback (runDisplay s (List.replicate n .kIOMessageDeviceWillPowerOff)).1
        .kIOMessageDeviceWillPowerOff).2 = [] ∧
    (displayCallback s .kIOMessageDeviceWillPowerOff).2 = [] ∧
    displayCallback (runDisplay s (List.replicate n .kIOMessageDeviceWillPowerOff)).1
        .kIOMessageDeviceHasPoweredOn
      = displayCallback s .kIOMessageDeviceHasPoweredOn ∧
    (displayCallback s .kIOMessageDeviceHasPoweredOn).1.state = displayOn := by
  have hU : UINT_RANGE = 4294967296 := by decide
  have hO : displayOff = 2 := rfl
  have hrun := runDisplay_willPowerOff_past_off n s (by omega) (by omega)
  rw [hoff] at hrun
  have hge : displayOff ≤ displayOff + n := by omega
  have hlt : displayOff + n + 1 < UINT_RANGE := by omega
  have hnext := displayCallback_willPowerOff_past_off { s with state := displayOff + n } hge hlt
  have hfirst := displayCallback_willPowerOff_past_off s (by omega) (by omega)
  refine ⟨hrun, ?_, ?_, ?_, ?_, ?_⟩
  · rw [hrun]; simp only; omega
  · rw [hrun, hnext]
  · rw [hfirst]
  · rw [hrun]
    have hd : displayOff + n ≠ displayDimmed := by unfold displayDimmed; omega
    have hd2 : s.state ≠ displayDimmed := by unfold displayDimmed; omega
    simp [displayCallback, hd, hd2]
  · simp [displayCallback]

/-- Witness for `willPowerOff_repeated_from_off`: four notifications from
`displayOff` with every display command configured. -/
theorem willPowerOff_repeated_from_off_witness :
    runDisplay { startup displayArgs with state := displayOff }
      (List.replicate 4 .kIOMessageDeviceWillPowerOff)
      = ({ startup displayArgs with state := displayOff + 4 }, []) :=
  (willPowerOff_repeated_from_off _ 4 rfl (by decide) (by decide)).1

/-- Claim C4, the code at the failing input: the state is `displayDimmed`,
`displayundimcommand` is not configured and `displaywakeupcommand` is; the
`kIOMessageDeviceHasPoweredOn` notification runs `displaywakeupcommand`, and
leaves the state `displayOn`. -/
theorem hasPoweredOn_dimmed_runs_wakeup :
    commands (displayCallback
        { startup { noArgs with displaywakeupcommand := some "wakeup" } with
          state := displayDimmed }
        .kIOMessageDeviceHasPoweredOn).2 = [(Command.displaywakeup, some "wakeup")] ∧
    (displayCallback
        { startup { noArgs with displaywakeupcommand := some "wakeup" } with
          state := displayDimmed }
        .kIOMessageDeviceHasPoweredOn).1.state = displayOn := by
  decide

/-- Claim C5: from state `displayOn` with all four display commands
configured, the notifications `kIOMessageDeviceWillPowerOff`,
`kIOMessageDeviceWillPowerOff`, `kIOMessageDeviceHasPoweredOn` take the state to
`displayDimmed`, then `displayOff`, then `displayOn`, and run
`displaydimcommand` at the first, `displaysleepcommand` at the second and
`displaywakeupcommand` at the third; these three are all the commands run, in
that order, so `displayundimcommand` (whatever its value, configured
included) is not run. -/
theorem display_dim_sleep_wakeup (s : State) (dim sleep wakeup : String)
    (hon : s.state = displayOn)
    (hdim : s.args.displaydimcommand = some dim)
    (hsleep : s.args.displaysleepcommand = some sleep)
    (hwakeup : s.args.displaywakeupcommand = some wakeup) :
    (runDisplay s [.kIOMessageDeviceWillPowerOff]).1.state = displayDimmed ∧
    (runDisplay s [.kIOMessageDeviceWillPowerOff, .kIOMessageDeviceWillPowerOff]).1.state
      = displayOff ∧
    (runDisplay s [.kIOMessageDeviceWillPowerOff, .kIOMessageDeviceWillPowerOff,
        .kIOMessageDeviceHasPoweredOn]).1.state = displayOn ∧
    commands (runDisplay s [.kIOMessageDeviceWillPowerOff]).2
      = [(Command.displaydim, some dim)] ∧
    commands (runDisplay s [.kIOMessageDeviceWillPowerOff, .kIOMessageDeviceWillPowerOff]).2
      = [(Command.displaydim, some dim), (Command.displaysleep, some sleep)] ∧
    commands (runDisplay s [.kIOMessageDeviceWillPowerOff, .kIOMessageDeviceWillPowerOff,
        .kIOMessageDeviceHasPoweredOn]).2
      = [(Command.displaydim, some dim), (Command.displaysleep, some sleep),
          (Command.displaywakeup, some wakeup)] := by
  have hU : UINT_RANGE = 4294967296 := by decide
  have e1 : displayCallback s .kIOMessageDeviceWillPowerOff
      = ({ s with state := displayDimmed },
          [Effect.system .displaydim (some dim)]
            ++ message s.args LOG_INFO "displaydim: %s: %d\n") := by
    simp [displayCallback, hon, hdim, displayOn, displayDimmed, hU]
  have e2 : displayCallback { s with state := displayDimmed } .kIOMessageDeviceWillPowerOff
      = ({ s with state := displayOff },
          [Effect.system .displaysleep (some sleep)]
            ++ message s.args LOG_INFO "displaysleep: %s: %d\n") := by
    simp [displayCallback, hsleep, displayOff, displayDimmed, hU]
  have e3 : displayCallback { s with state := displayOff } .kIOMessageDeviceHasPoweredOn
      = ({ s with state := displayOn },
          [Effect.system .displaywakeup (some wakeup)]
            ++ message s.args LOG_INFO "displaywakeup: %s: %d\n") := by
    simp [displayCallback, hwakeup, displayOff, displayDimmed, displayOn]
  simp only [runDisplay, e1, e2, e3, commands_append, commands_message, List.append_nil]
  simp [commands]

/-- Witness for `display_dim_sleep_wakeup`: the startup state with the four
display commands configured. -/
theorem display_dim_sleep_wakeup_witness :
    commands (runDisplay (startup displayArgs) [.kIOMessageDeviceWillPowerOff,
        .kIOMessageDeviceWillPowerOff, .kIOMessageDeviceHasPoweredOn]).2
      = [(Command.displaydim, some "dim"), (Command.displaysleep, some "sleep"),
          (Command.displaywakeup, some "wakeup")] :=
  (display_dim_sleep_wakeup (startup displayArgs) "dim" "sleep" "wakeup"
    rfl rfl rfl rfl).2.2.2.2.2

/-! ## The power source -/

theorem powerSourceCallback_unchanged (s : State) (info : Option PowerSourcesInfo)
    (h : getPowerSource info = POWER_SOURCE_ERROR ∨ getPowerSource info = s.oldPowerSource) :
    powerSourceCallback s info = (s, []) := by
  unfold powerSourceCallback
  rcases h with h | h <;> simp [h]

theorem powerSourceCallback_changed (s : State) (info : Option PowerSourcesInfo)
    (h1 : getPowerSource info ≠ POWER_SOURCE_ERROR)
    (h2 : getPowerSource info ≠ s.oldPowerSource) :
    (powerSourceCallback s info).1 = { s with oldPowerSource := getPowerSource info } ∧
    commands (powerSourceCallback s info).2 =
      if getPowerSource info = POWER_SOURCE_AC then
        match s.args.plugcommand with
        | some c => [(Command.plug, some c)]
        | none => []
      else
        match s.args.unplugcommand with
        | some c => [(Command.unplug, some c)]
        | none => [] := by
  unfold powerSourceCallback
  simp only [h1, h2, ne_eq, not_false_eq_true, and_self, if_true, true_and]
  split
  · cases s.args.plugcommand with
    | none => simp [commands]
    | some c =>
      simp only [commands_append, commands_message]
      simp [commands]
  · cases s.args.unplugcommand with
    | none => simp [commands]
    | some c =>
      simp only [commands_append, commands_message]
      simp [commands]

/-- Claim C6, failing input: at startup (stored source `POWER_SOURCE_ERROR`)
with both commands configured, the first successful read, of battery power,
runs `unplugcommand`; and the reads Battery, Battery, AC, AC, Battery run
three commands, `unplugcommand`, `plugcommand`, `unplugcommand`, not two. -/
theorem first_read_runs_command :
    commands (powerSourceCallback (startup plugArgs) onBattery).2
      = [(Command.unplug, some "unplug")] ∧
    commands (runPowerSource (startup plugArgs) [onBattery, onBattery, onAC, onAC, onBattery]).2
      = [(Command.unplug, some "unplug"), (Command.plug, some "plug"),
          (Command.unplug, some "unplug")] := by
  decide

theorem powerSourceCallback_stored (s : State) (info : Option PowerSourcesInfo) :
    (powerSourceCallback s info).1.oldPowerSource =
      if getPowerSource info ≠ POWER_SOURCE_ERROR then getPowerSource info
      else s.oldPowerSource := by
  unfold powerSourceCallback
  by_cases h1 : getPowerSource info = POWER_SOURCE_ERROR
  · simp [h1]
  · by_cases h2 : getPowerSource info = s.oldPowerSource
    · simp [h1, h2]
    · simp [h1, h2]

theorem runPowerSource_stored (reads : List (Option PowerSourcesInfo)) :
    ∀ s : State, (runPowerSource s reads).1.oldPowerSource =
      (lastSuccessfulRead reads).getD s.oldPowerSource := by
  induction reads with
  | nil => intro s; simp [runPowerSource, lastSuccessfulRead]
  | cons i is ih =>
    intro s
    simp only [runPowerSource, lastSuccessfulRead, ih, powerSourceCallback_stored]
    cases lastSuccessfulRead is with
    | some r => simp
    | none => by_cases h : getPowerSource i = POWER_SOURCE_ERROR <;> simp [h]

theorem powerSourceCallback_command_changed (s : State) (info : Option PowerSourcesInfo)
    (h : commands (powerSourceCallback s info).2 ≠ []) :
    getPowerSource info ≠ POWER_SOURCE_ERROR ∧ getPowerSource info ≠ s.oldPowerSource := by
  by_contra hc
  have hc2 : getPowerSource info = POWER_SOURCE_ERROR ∨
      getPowerSource info = s.oldPowerSource := by
    by_cases h1 : getPowerSource info = POWER_SOURCE_ERROR
    · exact Or.inl h1
    · by_cases h2 : getPowerSource info = s.oldPowerSource
      · exact Or.inr h2
      · exact absurd ⟨h1, h2⟩ hc
  rw [powerSourceCallback_unchanged s info hc2] at h
  exact h rfl

/-- A notification whose re-read fails or returns the stored source changes
nothing: no effect, state unchanged. In a sequence of notifications, a
notification that runs a command has a successful read, one that differs from
the stored source, and the stored source is the most recent earlier
successful read when there is one, however many failed reads lie in
between. -/
theorem powerSource_debounce (s : State) :
    (∀ info, getPowerSource info = POWER_SOURCE_ERROR ∨
        getPowerSource info = s.oldPowerSource →
      powerSourceCallback s info = (s, [])) ∧
    (∀ earlier info,
      commands (powerSourceCallback (runPowerSource s earlier).1 info).2 ≠ [] →
      getPowerSource info ≠ POWER_SOURCE_ERROR ∧
      getPowerSource info ≠ (runPowerSource s earlier).1.oldPowerSource ∧
      ∀ r, lastSuccessfulRead earlier = some r →
        (runPowerSource s earlier).1.oldPowerSource = r ∧ getPowerSource info ≠ r) := by
  refine ⟨fun info h => powerSourceCallback_unchanged s info h, ?_⟩
  intro earlier info h
  have hch := powerSourceCallback_command_changed _ info h
  refine ⟨hch.1, hch.2, ?_⟩
  intro r hr
  have hst := runPowerSource_stored earlier s
  rw [hr] at hst
  simp only [Option.getD_some] at hst
  exact ⟨hst, by rw [← hst]; exact hch.2⟩

/-- Claim C7, failing input: from startup with both commands configured, two
notifications whose reads fail and then one whose read returns AC power. The
failed reads change nothing and run nothing; the third notification runs
`plugcommand`, although no successful read precedes it: the command runs at a
read that differs from no earlier successful read. -/
theorem command_without_earlier_read :
    runPowerSource (startup plugArgs) [none, none] = (startup plugArgs, []) ∧
    lastSuccessfulRead [none, none] = none ∧
    commands (powerSourceCallback (runPowerSource (startup plugArgs) [none, none]).1 onAC).2
      = [(Command.plug, some "plug")] ∧
    commands (runPowerSource (startup plugArgs) [none, none, onAC]).2
      = [(Command.plug, some "plug")] := by
  decide

/-! ## Input activity -/

theorem hidCallback_commands (s : State) (now current : Double) :
    commands (hidCallback s now current).2 =
      (if s.args.breaklength ≠ 0 ∧
          Double.ge
            (Double.sub now
              (if Double.eq s.timeOfLastCall 0 = true then now else s.timeOfLastCall))
            (Double.mul (Double.ofLong s.args.breaklength) TIMER_RESOLUTION) = true
        then [(Command.resume, s.args.resumecommand)] else []) ++
      (if s.args.idleresume = true ∧ s.args.idleresumecommand ≠ none
        then [(Command.idleresume, s.args.idleresumecommand)] else []) := by
  unfold hidCallback
  dsimp only
  by_cases hb : s.args.breaklength ≠ 0 ∧
      Double.ge
        (Double.sub now
          (if Double.eq s.timeOfLastCall 0 = true then now else s.timeOfLastCall))
        (Double.mul (Double.ofLong s.args.breaklength) TIMER_RESOLUTION) = true <;>
    by_cases hi : s.args.idleresume = true ∧ s.args.idleresumecommand ≠ none
  · rw [if_pos hi, if_pos hb, if_pos hb, if_pos hi]
    simp only [commands_append, commands_message]
    simp [commands]
  · rw [if_neg hi, if_pos hb, if_pos hb, if_neg hi]
    simp only [commands_append, commands_message]
    simp [commands]
  · rw [if_pos hi, if_neg hb, if_neg hb, if_pos hi]
    simp only [commands_append, commands_message]
    simp [commands]
  · rw [if_neg hi, if_neg hb, if_neg hb, if_neg hi]
    simp [commands]

theorem hidCallback_state (s : State) (now current : Double) :
    (hidCallback s now current).1 =
      { s with
        args := { s.args with
          idleresume := if s.args.idleresume = true ∧ s.args.idleresumecommand ≠ none
            then false else s.args.idleresume }
        timeOfLastCall := now
        idleTimer := setupTimer s.args.idletimeout s.idleTimer current } := by
  unfold hidCallback setupIdleTimer
  dsimp only
  by_cases hi : s.args.idleresume = true ∧ s.args.idleresumecommand ≠ none
  · rw [if_pos hi, if_pos hi]
  · rw [if_neg hi, if_neg hi]

theorem hidCallback_commandsOf_idleresume (s : State) (now current : Double) :
    commandsOf .idleresume (hidCallback s now current).2 =
      if s.args.idleresume = true ∧ s.args.idleresumecommand ≠ none
        then [(Command.idleresume, s.args.idleresumecommand)] else [] := by
  rw [commandsOf, hidCallback_commands]
  by_cases hb : s.args.breaklength ≠ 0 ∧
      Double.ge
        (Double.sub now
          (if Double.eq s.timeOfLastCall 0 = true then now else s.timeOfLastCall))
        (Double.mul (Double.ofLong s.args.breaklength) TIMER_RESOLUTION) = true <;>
    by_cases hi : s.args.idleresume = true ∧ s.args.idleresumecommand ≠ none
  · rw [if_pos hi, if_pos hb]; simp
  · rw [if_neg hi, if_pos hb]; simp
  · rw [if_pos hi, if_neg hb]; simp
  · rw [if_neg hi, if_neg hb]; simp

/-- The fire date that `setupTimer` computes for a timeout of 3 units when the
clock reads 0: the product of 3 and the `double` nearest 0.1 rounds to
`0x1.3333333333334p-2` (0.30000000000000004), one unit in the last place above
the `double` nearest 0.3, and for a timeout of 50 units the product is 5. -/
theorem setupTimer_fireDate_rounds :
    setupTimer 3 none 0
      = some { fireDate := .finite 5404319552844596 (-54)
               interval := kCFAbsoluteTimeIntervalSince1904 } ∧
    Double.mul (Double.ofLong 50) TIMER_RESOLUTION = 5 := by
  decide

/-- The break test on rounded values: break length 43 units, previous event at
the `double` nearest 4.3 s, this event at the `double` nearest 8.6 s. The
difference is the `double` nearest 4.3, which is below 4.3, and so is the
product of 43 and `TIMER_RESOLUTION`: the test `>=` holds and the event runs
`resumecommand`. -/
theorem hidCallback_break_test_rounds :
    Double.sub (.finite 4841369599423283 (-49)) (.finite 4841369599423283 (-50))
      = .finite 4841369599423283 (-50) ∧
    Double.mul (Double.ofLong 43) TIMER_RESOLUTION = .finite 4841369599423283 (-50) ∧
    commands
        (hidCallback
          { startup { noArgs with breaklength := 43, resumecommand := some "resume" } with
            timeOfLastCall := .finite 4841369599423283 (-50) }
          (.finite 4841369599423283 (-49)) (.finite 4841369599423283 (-49))).2
      = [(Command.resume, some "resume")] := by
  decide

/-- The calls of `system(args.resumecommand)` that an input-activity event
makes: one if `breaklength` is non-zero and the `double` difference
`now - timeOfLastCall` is at least the `double` product
`breaklength * TIMER_RESOLUTION`, none otherwise; `args.idleresume` plays no
part. -/
theorem hidCallback_commandsOf_resume (s : State) (now current : Double) :
    commandsOf .resume (hidCallback s now current).2 =
      if s.args.breaklength ≠ 0 ∧
          Double.ge
            (Double.sub now
              (if Double.eq s.timeOfLastCall 0 = true then now else s.timeOfLastCall))
            (Double.mul (Double.ofLong s.args.breaklength) TIMER_RESOLUTION) = true
        then [(Command.resume, s.args.resumecommand)] else [] := by
  rw [commandsOf, hidCallback_commands]
  by_cases hb : s.args.breaklength ≠ 0 ∧
      Double.ge
        (Double.sub now
          (if Double.eq s.timeOfLastCall 0 = true then now else s.timeOfLastCall))
        (Double.mul (Double.ofLong s.args.breaklength) TIMER_RESOLUTION) = true <;>
    by_cases hi : s.args.idleresume = true ∧ s.args.idleresumecommand ≠ none
  · rw [if_pos hi, if_pos hb]; simp
  · rw [if_neg hi, if_pos hb]; simp
  · rw [if_pos hi, if_neg hb]; simp
  · rw [if_neg hi, if_neg hb]; simp

/-- Claim C8, counterexample: `args.idleresume` is set and `idleresumecommand`
is not configured; after an input-activity event the flag is still set. -/
theorem idleresume_stays_set :
    (hidCallback (startup { noArgs with idleresume := true }) 7 7).1.args.idleresume
      = true := by
  rw [hidCallback_state]
  decide

/-- Claim C8, amended: for every input-activity event handled while
`args.idleresume` is set: if `idleresumecommand` is configured it is run
exactly once and the flag is clear afterwards; if it is not configured no
idle-resume command is run and the flag stays set. -/
theorem hidCallback_idleresume (s : State) (now current : Double)
    (hpending : s.args.idleresume = true) :
    match s.args.idleresumecommand with
    | some c =>
      commandsOf .idleresume (hidCallback s now current).2 = [(Command.idleresume, some c)] ∧
        (hidCallback s now current).1.args.idleresume = false
    | none =>
      commandsOf .idleresume (hidCallback s now current).2 = [] ∧
        (hidCallback s now current).1.args.idleresume = true := by
  simp only [hidCallback_commandsOf_idleresume, hidCallback_state, hpending]
  cases s.args.idleresumecommand with
  | none => simp
  | some c => simp

/-- Witness for `hidCallback_idleresume`: an event at 7 s with the flag set and
`idleresumecommand` configured. -/
theorem hidCallback_idleresume_witness :
    commandsOf .idleresume (hidCallback (startup idleArgs) 7 8).2
        = [(Command.idleresume, some "idleresume")] ∧
      (hidCallback (startup idleArgs) 7 8).1.args.idleresume = false :=
  hidCallback_idleresume (startup idleArgs) 7 8 rfl

/-- Claim C9, failing input: `sleepwatcher -b 18446744073709551611 -r resume`.
The break length does not fit a `long`; `scanTime` has no range check, its
`long` arithmetic wraps to -5, and `parseArgs` keeps that value together with
the command. `breaklength > 0` is false, yet the first input-activity event,
at 100 s, is followed by one at 101 s that runs `resumecommand`: the test in
`hidCallback` asks for a non-zero `breaklength`, and 1 s is at least
-0.5 s. -/
theorem overflowed_break_runs_resume :
    (parseArgs overflowHost 0 zeroArgs overflowArgv).outcome = .returns parsedOverflowArgs ∧
    parsedOverflowArgs.breaklength = -5 ∧
    ¬ (0 < parsedOverflowArgs.breaklength) ∧
    (hidCallback (startup parsedOverflowArgs) 100 100).1.timeOfLastCall = 100 ∧
    commandsOf .resume
        (hidCallback (hidCallback (startup parsedOverflowArgs) 100 100).1 101 101).2
      = [(Command.resume, some "resume")] := by
  decide

/-- Claim C10, counterexample: idle timeout 50 timer units, activity event at
t = 70 units (7 s) while `args.idleresume` is set; `idleresumecommand` runs
and the clock reads 8 s when `setupTimer` is reached. The timer is set to
fire at 13 s (t = 130), not at 7 s + 50 units = 12 s (t = 120). -/
theorem idle_timer_set_from_later_clock :
    (hidCallback (startup idleArgs) 7 8).1.timeOfLastCall = 7 ∧
    commands (hidCallback (startup idleArgs) 7 8).2
      = [(Command.idleresume, some "idleresume")] ∧
    (hidCallback (startup idleArgs) 7 8).1.idleTimer
      = some { fireDate := 13, interval := kCFAbsoluteTimeIntervalSince1904 } ∧
    Double.add 7 (Double.mul (Double.ofLong (startup idleArgs).args.idletimeout) TIMER_RESOLUTION)
      = 12 ∧
    (13 : Double) ≠ 12 := by
  decide

/-- Claim C10, amended: for every input-activity event at time `now`, every
idle timeout `T` and whatever `breaklength` and `args.idleresume` are: after
`hidCallback` returns, `timeOfLastCall` is `now`; if `T = 0` there is no idle
timer; if `T > 0` the idle timer is set to fire at the value of the `double`
expression `current + T * TIMER_RESOLUTION`, where `current` is the clock
value that `setupTimer` reads at the end of the callback, after any command
the event runs; this is the value of `now + T * TIMER_RESOLUTION` when the
clock still reads `now` there. -/
theorem hidCallback_rearms (s : State) (now current : Double) :
    (hidCallback s now current).1.timeOfLastCall = now ∧
    (s.args.idletimeout = 0 → (hidCallback s now current).1.idleTimer = none) ∧
    (0 < s.args.idletimeout →
      ∃ t, (hidCallback s now current).1.idleTimer = some t ∧
        t.fireDate =
          Double.add current (Double.mul (Double.ofLong s.args.idletimeout) TIMER_RESOLUTION)) ∧
    (0 < s.args.idletimeout → current = now →
      ∃ t, (hidCallback s now current).1.idleTimer = some t ∧
        t.fireDate =
          Double.add now (Double.mul (Double.ofLong s.args.idletimeout) TIMER_RESOLUTION)) := by
  have harm : 0 < s.args.idletimeout →
      ∃ t, (hidCallback s now current).1.idleTimer = some t ∧
        t.fireDate =
          Double.add current
            (Double.mul (Double.ofLong s.args.idletimeout) TIMER_RESOLUTION) := by
    intro hT
    have hne : s.args.idletimeout ≠ 0 := by omega
    rw [hidCallback_state]
    simp only [setupTimer, if_pos hne]
    cases s.idleTimer with
    | none => exact ⟨_, rfl, rfl⟩
    | some t0 => exact ⟨_, rfl, rfl⟩
  refine ⟨?_, ?_, harm, ?_⟩
  · rw [hidCallback_state]
  · intro h0
    rw [hidCallback_state]
    simp [setupTimer, h0]
  · intro hT hnow
    obtain ⟨t, ht, hu⟩ := harm hT
    exact ⟨t, ht, by rw [hu, hnow]⟩

/-- Witness for `hidCallback_rearms`: idle timeout 50 units, activity at
t = 70 units (7 s) with the clock still at 7 s when the timer is set: the
timer fires at t = 120 units (12 s). -/
theorem hidCallback_rearms_witness :
    ∃ t, (hidCallback (startup idleArgs) 7 7).1.idleTimer = some t ∧ t.fireDate = 12 :=
  ((hidCallback_rearms (startup idleArgs) 7 7).2.2.2 (by decide) rfl).imp
    fun _ h => ⟨h.1, h.2.trans (by decide)⟩

/-! ## Runs -/

theorem Run.bind_outcome_of_returns {α β : Type} {r : Run α} {f : α → Run β} {value : α}
    (h : r.outcome = .returns value) : (r >>= f).outcome = (f value).outcome := by
  show (Run.bind r f).outcome = _
  unfold Run.bind
  rw [h]

theorem Run.bind_trace_of_returns {α β : Type} {r : Run α} {f : α → Run β} {value : α}
    (h : r.outcome = .returns value) : (r >>= f).trace = r.trace ++ (f value).trace := by
  show (Run.bind r f).trace = _
  unfold Run.bind
  rw [h]

theorem Run.bind_returns {α β : Type} {r : Run α} {f : α → Run β} {result : β}
    (h : (r >>= f).outcome = .returns result) :
    ∃ value, r.outcome = .returns value ∧ (f value).outcome = .returns result := by
  change (Run.bind r f).outcome = _ at h
  unfold Run.bind at h
  cases hr : r.outcome with
  | returns value => rw [hr] at h; exact ⟨value, rfl, h⟩
  | exits status => rw [hr] at h; cases h
  | undefined => rw [hr] at h; cases h
  | outOfFuel => rw [hr] at h; cases h

theorem Run.bind_outcome_congr {α β : Type} {r r' : Run α} (f : α → Run β)
    (h : r.outcome = r'.outcome) : (r >>= f).outcome = (r' >>= f).outcome := by
  show (Run.bind r f).outcome = (Run.bind r' f).outcome
  unfold Run.bind
  rw [h]
  cases r'.outcome <;> rfl

theorem Run.bind_outcome_congr_right {α β : Type} {r : Run α} {f g : α → Run β}
    (h : ∀ value, (f value).outcome = (g value).outcome) :
    (r >>= f).outcome = (r >>= g).outcome := by
  show (Run.bind r f).outcome = (Run.bind r g).outcome
  unfold Run.bind
  cases r.outcome with
  | returns value => exact h value
  | exits status => rfl
  | undefined => rfl
  | outOfFuel => rfl

theorem Run.Ensures.bind {α β : Type} {r : Run α} {f : α → Run β} {P : α → Prop}
    {Q : β → Prop} (h1 : r.Ensures P) (h2 : ∀ value, P value → (f value).Ensures Q) :
    (r >>= f).Ensures Q := by
  intro result h
  obtain ⟨value, hv, hf⟩ := Run.bind_returns h
  exact h2 value (h1 value hv) result hf

theorem Run.Ensures.pure {α : Type} {P : α → Prop} {value : α} (h : P value) :
    (Pure.pure value : Run α).Ensures P := by
  intro result hr
  cases hr
  exact h

theorem Run.Ensures.of_not_returns {α : Type} {P : α → Prop} {r : Run α}
    (h : ∀ value, r.outcome ≠ .returns value) : r.Ensures P :=
  fun value hv => absurd hv (h value)

theorem Run.Ensures.mono {α : Type} {P Q : α → Prop} {r : Run α} (h : r.Ensures P)
    (hPQ : ∀ value, P value → Q value) : r.Ensures Q :=
  fun value hv => hPQ value (h value hv)

theorem Run.pure_bind {α β : Type} (value : α) (f : α → Run β) :
    (Pure.pure value >>= f) = f value := by
  show Run.bind (Run.pure value) f = f value
  simp [Run.bind, Run.pure]

theorem Run.message_bind_outcome {β : Type} (a : Args) (priority : Nat) (msg : String)
    (f : Unit → Run β) : (Run.message a priority msg >>= f).outcome = (f ()).outcome :=
  Run.bind_outcome_of_returns rfl

theorem Run.message_outcome (a : Args) (priority : Nat) (msg : String) :
    (Run.message a priority msg).outcome = .returns () := rfl

theorem setstr_outcome (oldstr : CharPtr) (newstr : Option String)
    (h : oldstr ≠ .DENY_SLEEP) : (setstr oldstr newstr).outcome = .returns newstr := by
  unfold setstr
  cases oldstr with
  | DENY_SLEEP => exact absurd rfl h
  | NULL => rfl
  | str s => rfl

theorem ofOption_ne_deny (command : Option String) :
    CharPtr.ofOption command ≠ .DENY_SLEEP := by
  cases command <;> simp [CharPtr.ofOption]

theorem setstr_ensures (oldstr : CharPtr) (newstr : Option String) :
    (setstr oldstr newstr).Ensures (fun p => p = newstr) := by
  intro p h
  unfold setstr at h
  cases oldstr with
  | DENY_SLEEP => cases h
  | NULL => cases h; rfl
  | str s => cases h; rfl

/-! ## Scanning a time argument -/

theorem wrapLong_of_range (n : Int) (h0 : 0 ≤ n) (h1 : n ≤ LONG_MAX) : wrapLong n = n := by
  unfold wrapLong ULONG_RANGE
  unfold LONG_MAX at h1
  omega

theorem digitValue_range (c : Char) (h : isdigit c = true) :
    0 ≤ digitValue c ∧ digitValue c ≤ 9 := by
  unfold isdigit at h
  unfold digitValue
  have h48 : '0'.toNat = 48 := by decide
  have h57 : '9'.toNat = 57 := by decide
  rw [h48, h57] at h
  rw [h48]
  simp only [Bool.and_eq_true, decide_eq_true_eq] at h
  omega

theorem decimalValue_nonneg (cs : List Char) (h : ∀ c ∈ cs, isdigit c = true) :
    0 ≤ decimalValue cs := by
  induction cs with
  | nil => simp [decimalValue]
  | cons c cs ih =>
    have hc := digitValue_range c (h c (List.mem_cons_self c cs))
    have hcs := ih (fun d hd => h d (List.mem_cons_of_mem c hd))
    have hpow : (0 : Int) ≤ 10 ^ cs.length := by positivity
    have hmul : 0 ≤ digitValue c * 10 ^ cs.length := Int.mul_nonneg hc.1 hpow
    unfold decimalValue
    omega

theorem scanDigits_digits (cs : List Char) :
    ∀ t : Int, 0 ≤ t → (∀ c ∈ cs, isdigit c = true) →
      t * 10 ^ cs.length + decimalValue cs ≤ LONG_MAX →
      scanDigits t cs = (t * 10 ^ cs.length + decimalValue cs, []) := by
  induction cs with
  | nil => intro t _ _ _; simp [scanDigits, decimalValue]
  | cons c cs ih =>
    intro t ht hd hmax
    have hc := digitValue_range c (hd c (List.mem_cons_self c cs))
    have hcs : ∀ d ∈ cs, isdigit d = true := fun d hm => hd d (List.mem_cons_of_mem c hm)
    have hval := decimalValue_nonneg cs hcs
    have hpow : (1 : Int) ≤ 10 ^ cs.length := by
      have : (0 : Int) < 10 ^ cs.length := by positivity
      omega
    have hexp : t * 10 ^ (c :: cs).length + decimalValue (c :: cs)
        = (10 * t + digitValue c) * 10 ^ cs.length + decimalValue cs := by
      simp only [List.length_cons, decimalValue, pow_succ]
      ring
    rw [hexp] at hmax
    have hnew0 : 0 ≤ 10 * t + digitValue c := by omega
    have hle : 10 * t + digitValue c ≤ (10 * t + digitValue c) * 10 ^ cs.length := by
      have := Int.mul_le_mul_of_nonneg_left hpow hnew0
      simpa using this
    have hnew1 : 10 * t + digitValue c ≤ LONG_MAX := by omega
    have hwrap := wrapLong_of_range _ hnew0 hnew1
    have hstep : scanDigits t (c :: cs) = scanDigits (10 * t + digitValue c) cs := by
      simp only [scanDigits, hd c (List.mem_cons_self c cs), if_true]
      unfold digitValue at hwrap
      rw [hwrap]
      rfl
    rw [hstep, hexp]
    exact ih _ hnew0 hcs hmax

theorem scanDigits_stops (cs : List Char) :
    ∀ t : Int, (∃ c ∈ cs, isdigit c = false) → (scanDigits t cs).2 ≠ [] := by
  induction cs with
  | nil => intro t h; obtain ⟨c, hc, _⟩ := h; cases hc
  | cons c cs ih =>
    intro t h
    by_cases hc : isdigit c = true
    · have hrest : ∃ d ∈ cs, isdigit d = false := by
        obtain ⟨d, hd, hnd⟩ := h
        rcases List.mem_cons.mp hd with rfl | hmem
        · rw [hc] at hnd; cases hnd
        · exact ⟨d, hmem, hnd⟩
      simp only [scanDigits, hc, if_true]
      exact ih _ hrest
    · simp [scanDigits, hc]

theorem scanTime_nondigit (a : Args) (s msg : String)
    (h : ∃ c ∈ s.toList, isdigit c = false) : (scanTime a s msg).outcome = .returns (-1) := by
  unfold scanTime
  rw [if_pos (scanDigits_stops s.toList 0 h)]
  rfl

/-- Claim C15: for every argument string `s`, `scanTime` returns the decimal
value of `s`, and writes no message, when `s` consists only of the digits 0-9
and that value is at most `LONG_MAX` (0 for the empty string); and it returns
-1 when `s` contains a character that is not a decimal digit, wherever that
character stands. -/
theorem scanTime_value (a : Args) (s msg : String) :
    ((∀ c ∈ s.toList, isdigit c = true) → decimalValue s.toList ≤ LONG_MAX →
      scanTime a s msg = ⟨[], .returns (decimalValue s.toList)⟩) ∧
    ((∃ c ∈ s.toList, isdigit c = false) → (scanTime a s msg).outcome = .returns (-1)) ∧
    scanTime a "" msg = ⟨[], .returns 0⟩ := by
  refine ⟨?_, ?_, ?_⟩
  · intro hd hmax
    have h := scanDigits_digits s.toList 0 (le_refl 0) hd (by simpa using hmax)
    simp only [zero_mul, zero_add] at h
    unfold scanTime
    rw [h]
    simp only [ne_eq, not_true_eq_false, if_false]
    rfl
  · exact scanTime_nondigit a s msg
  · rfl

/-- Witness for `scanTime_value`: `"50"` scans to 50, `LONG_MAX` written out
scans to itself, and `"5x"`, `"-5"`, `" 5"`, `"5.0"` and `"5s"` to -1. -/
theorem scanTime_value_witness :
    scanTime noArgs "50" "" = ⟨[], .returns 50⟩ ∧
    scanTime noArgs "9223372036854775807" "" = ⟨[], .returns LONG_MAX⟩ ∧
    (scanTime noArgs "5x" "").outcome = .returns (-1) ∧
    (scanTime noArgs "-5" "").outcome = .returns (-1) ∧
    (scanTime noArgs " 5" "").outcome = .returns (-1) ∧
    (scanTime noArgs "5.0" "").outcome = .returns (-1) ∧
    (scanTime noArgs "5s" "").outcome = .returns (-1) :=
  ⟨(scanTime_value noArgs "50" "").1 (by decide) (by decide),
    (scanTime_value noArgs "9223372036854775807" "").1 (by decide) (by decide),
    (scanTime_value noArgs "5x" "").2.1 ⟨'x', by decide, by decide⟩,
    (scanTime_value noArgs "-5" "").2.1 ⟨'-', by decide, by decide⟩,
    (scanTime_value noArgs " 5" "").2.1 ⟨' ', by decide, by decide⟩,
    (scanTime_value noArgs "5.0" "").2.1 ⟨'.', by decide, by decide⟩,
    (scanTime_value noArgs "5s" "").2.1 ⟨'s', by decide, by decide⟩⟩

/-! ## Timeouts and their commands -/

theorem checkTimeoutCommand_outcome (a : Args) (timeout : Int) (command : Option String)
    (m1 m2 : String) :
    (checkTimeoutCommand a timeout command m1 m2).outcome =
      .returns (checkedPair timeout command) := by
  unfold checkTimeoutCommand checkedPair
  by_cases h1 : timeout = -1
  · subst h1
    cases command <;> rfl
  · by_cases h0 : timeout = 0
    · subst h0
      cases command <;> rfl
    · cases command with
      | none =>
        simp only [h1, h0, if_false, Run.pure_bind, false_and, ne_eq, not_true_eq_false,
          not_false_eq_true, and_true, and_self, if_true, or_true, Run.message_bind_outcome]
        rfl
      | some c =>
        simp only [h1, h0, if_false, Run.pure_bind, false_and, ne_eq, not_true_eq_false,
          not_false_eq_true, and_true, and_false, or_false, false_or, reduceCtorEq]
        rfl

theorem checkArgs_outcome (a : Args) :
    (checkArgs a).outcome = .returns
      { a with idletimeout := (checkedPair a.idletimeout a.idlecommand).1
               idlecommand := (checkedPair a.idletimeout a.idlecommand).2
               breaklength := (checkedPair a.breaklength a.resumecommand).1
               resumecommand := (checkedPair a.breaklength a.resumecommand).2 } := by
  unfold checkArgs
  rw [Run.bind_outcome_of_returns (checkTimeoutCommand_outcome _ _ _ _ _)]
  rw [Run.bind_outcome_of_returns (checkTimeoutCommand_outcome _ _ _ _ _)]
  dsimp only
  split <;> split <;>
    simp only [Run.pure_bind, Run.message_bind_outcome] <;> rfl

theorem checkedPair_iff (timeout : Int) (command : Option String) :
    (checkedPair timeout command).1 ≠ 0 ↔ (checkedPair timeout command).2 ≠ none := by
  unfold checkedPair
  by_cases h : timeout = -1 ∨ timeout = 0 ∨ command = none
  · simp [h]
  · rw [if_neg h]
    simp only [not_or] at h
    simp [h.2.1, h.2.2]

/-! ## Parsing the arguments -/

theorem writePidFile_outcome (host : Host) (a : Args) (pidfile : Option String) :
    (writePidFile host a pidfile).outcome = .returns { a with pidfile := pidfile } := by
  unfold writePidFile
  cases pidfile with
  | none => cases hp : a.pidfile <;> rfl
  | some name =>
    have hemit : ∀ (es : List ConfigEffect) (f : Unit → Run Args),
        (Run.emit es >>= f).outcome = (f ()).outcome :=
      fun es f => Run.bind_outcome_of_returns rfl
    cases hp : a.pidfile with
    | none =>
      dsimp only
      rw [Run.pure_bind, Run.bind_outcome_of_returns (setstr_outcome _ _ (ofOption_ne_deny _))]
      dsimp only
      split
      · rw [hemit]; rfl
      · rw [Run.message_bind_outcome]; rfl
    | some old =>
      dsimp only
      rw [hemit, Run.bind_outcome_of_returns (setstr_outcome _ _ (ofOption_ne_deny _))]
      dsimp only
      split
      · rw [hemit]; rfl
      · rw [Run.message_bind_outcome]; rfl

theorem resetArgs_outcome (host : Host) (a : Args) (argv : List String)
    (h : a.allowsleepcommand ≠ .DENY_SLEEP) :
    (resetArgs host a argv).outcome =
      .returns { clearedArgs host argv with pidfile := a.pidfile } := by
  unfold resetArgs
  rw [Run.bind_outcome_of_returns (setstr_outcome _ _ h)]
  iterate 12 rw [Run.bind_outcome_of_returns (setstr_outcome _ _ (ofOption_ne_deny _))]
  rfl

theorem resetArgs_deny (host : Host) (a : Args) (argv : List String)
    (h : a.allowsleepcommand = .DENY_SLEEP) :
    resetArgs host a argv = ⟨[.setstr .DENY_SLEEP none], .undefined⟩ := by
  unfold resetArgs
  rw [h]
  rfl

theorem parseArgs_outcome (host : Host) (fuel : Nat) (a : Args) (argv : List String)
    (h : a.allowsleepcommand ≠ .DENY_SLEEP) :
    (parseArgs host fuel a argv).outcome =
      if argv.length = 1 then .exits 2
      else ((host.getopt_long argv).foldlM (fun a o => setOption host fuel a o.1 o.2)
              (clearedArgs host argv) >>= checkArgs).outcome := by
  unfold parseArgs
  rw [Run.bind_outcome_of_returns (resetArgs_outcome host a argv h)]
  rw [Run.bind_outcome_of_returns (writePidFile_outcome host _ none)]
  dsimp only
  split
  · rfl
  · rw [Run.pure_bind]
    refine Run.bind_outcome_congr_right ?_
    intro b
    split
    · rw [Run.message_bind_outcome]
    · rw [Run.pure_bind]

theorem parseArgs_deny (host : Host) (fuel : Nat) (a : Args) (argv : List String)
    (h : a.allowsleepcommand = .DENY_SLEEP) :
    parseArgs host fuel a argv = ⟨[.setstr .DENY_SLEEP none], .undefined⟩ := by
  unfold parseArgs
  rw [resetArgs_deny host a argv h]
  rfl

theorem parseArgs_returns (host : Host) (fuel : Nat) (a a' : Args) (argv : List String)
    (h : (parseArgs host fuel a argv).outcome = .returns a') :
    a.allowsleepcommand ≠ .DENY_SLEEP ∧ argv.length ≠ 1 ∧
    ∃ b, ((host.getopt_long argv).foldlM (fun a o => setOption host fuel a o.1 o.2)
            (clearedArgs host argv)).outcome = .returns b ∧
      (checkArgs b).outcome = .returns a' := by
  by_cases hd : a.allowsleepcommand = .DENY_SLEEP
  · rw [parseArgs_deny host fuel a argv hd] at h
    cases h
  · rw [parseArgs_outcome host fuel a argv hd] at h
    by_cases h1 : argv.length = 1
    · rw [if_pos h1] at h
      cases h
    · rw [if_neg h1] at h
      exact ⟨hd, h1, Run.bind_returns h⟩

/-- Claim C13: for every pair `(timeout, command)`, the marker -1 and an
absent command included, `checkTimeoutCommand` returns, and in the pair it
leaves the timeout is non-zero if and only if the command is present; a pair
with `timeout > 0` and a command present is left as it is, with no message
and no call of `setstr`. Hence whenever `parseArgs` returns, this holds for
`(idletimeout, idlecommand)` and for `(breaklength, resumecommand)`. -/
theorem checkTimeoutCommand_pairs (host : Host) (fuel : Nat) (a : Args) (argv : List String)
    (timeout : Int) (command : Option String) (m1 m2 : String) :
    (∃ r, (checkTimeoutCommand a timeout command m1 m2).outcome = .returns r ∧
      (r.1 ≠ 0 ↔ r.2 ≠ none)) ∧
    (0 < timeout → command ≠ none →
      checkTimeoutCommand a timeout command m1 m2 = ⟨[], .returns (timeout, command)⟩) ∧
    (∀ a', (parseArgs host fuel a argv).outcome = .returns a' →
      (a'.idletimeout ≠ 0 ↔ a'.idlecommand ≠ none) ∧
      (a'.breaklength ≠ 0 ↔ a'.resumecommand ≠ none)) := by
  refine ⟨⟨_, checkTimeoutCommand_outcome a timeout command m1 m2,
    checkedPair_iff timeout command⟩, ?_, ?_⟩
  · intro hpos hcmd
    have h1 : timeout ≠ -1 := by omega
    have h0 : timeout ≠ 0 := by omega
    cases command with
    | none => exact absurd rfl hcmd
    | some c =>
      unfold checkTimeoutCommand
      simp only [h1, h0, if_false, Run.pure_bind, false_and, ne_eq, not_true_eq_false,
        not_false_eq_true, and_true, and_false, reduceCtorEq]
      rfl
  · intro a' h
    obtain ⟨_, _, b, _, hb⟩ := parseArgs_returns host fuel a a' argv h
    rw [checkArgs_outcome] at hb
    cases hb
    exact ⟨checkedPair_iff _ _, checkedPair_iff _ _⟩

/-- Witness for `checkTimeoutCommand_pairs`: the pair `(50, idle)` is left as
it is, and `parseArgs` returns for `-t 5x -i idle` with timeout 0 and no
idle command. -/
theorem checkTimeoutCommand_pairs_witness :
    checkTimeoutCommand noArgs 50 (some "idle") "" "" = ⟨[], .returns (50, some "idle")⟩ ∧
    ((parseArgs (hostWith [('t', some "5x"), ('i', some "idle")] "") 0 zeroArgs
        ["sleepwatcher", "-t", "5x", "-i", "idle"]).outcome.value?.map
      (fun a => (a.idletimeout, a.idlecommand))) = some (0, none) :=
  ⟨(checkTimeoutCommand_pairs (hostWith [] "") 0 noArgs [] 50 (some "idle") "" "").2.1
      (by decide) (by decide),
    by decide⟩

/-! ## Options -/

theorem readConfigLoop_ensures (setOpt : Args → Char → Option String → Run Args)
    (P : Args → Prop) (hset : ∀ a c o, P a → (setOpt a c o).Ensures P) :
    ∀ (lines : Nat) (stream buf : List Char) (a : Args), P a →
      (readConfigLoop setOpt lines stream buf a).Ensures P := by
  intro lines
  induction lines with
  | zero =>
    intro stream buf a ha
    unfold readConfigLoop
    exact Run.Ensures.pure ha
  | succ lines ih =>
    intro stream buf a ha
    unfold readConfigLoop
    split
    · exact Run.Ensures.pure ha
    · dsimp only
      split
      · exact ih _ _ a ha
      · split
        · split
          · refine Run.Ensures.bind (P := fun _ => True) (fun _ _ => trivial) ?_
            intro _ _
            exact Run.Ensures.bind (hset a _ _ ha) (fun b hb => ih _ _ b hb)
          · rw [Run.pure_bind]
            exact Run.Ensures.bind (hset a _ _ ha) (fun b hb => ih _ _ b hb)
        · refine Run.Ensures.bind (P := fun _ => True) (fun _ _ => trivial) ?_
          intro _ _
          exact ih _ _ a ha

theorem readConfig_ensures (setOpt : Args → Char → Option String → Run Args) (host : Host)
    (P : Args → Prop) (hset : ∀ a c o, P a → (setOpt a c o).Ensures P)
    (a : Args) (configfile : String) (ha : P a) :
    (readConfig setOpt host a configfile).Ensures P := by
  unfold readConfig
  split
  · refine Run.Ensures.bind (P := fun _ => True) (fun _ _ => trivial) ?_
    intro _ _
    exact Run.Ensures.pure ha
  · exact readConfigLoop_ensures setOpt P hset _ _ _ a ha

theorem writePidFile_ensures (host : Host) (a : Args) (pidfile : Option String) :
    (writePidFile host a pidfile).Ensures (fun b => b = { a with pidfile := pidfile }) := by
  intro b hb
  rw [writePidFile_outcome] at hb
  cases hb
  rfl


theorem setOption_keeps_idleresume (host : Host) :
    ∀ (fuel : Nat) (a : Args) (c : Char) (optarg : Option String), a.idleresume = false →
      (setOption host fuel a c optarg).Ensures (fun b => b.idleresume = false) := by
  intro fuel
  induction fuel with
  | zero =>
    intro a c optarg ha
    unfold setOption setOptionBody
    by_cases hcn : c = 'n'
    · rw [if_pos hcn]
      exact Run.Ensures.of_not_returns (fun _ h => by cases h)
    rw [if_neg hcn]
    by_cases hcv : c = 'v'
    · rw [if_pos hcv]
      exact Run.Ensures.of_not_returns (fun _ h => by cases h)
    rw [if_neg hcv]
    by_cases hcV : c = 'V'
    · rw [if_pos hcV]
      exact Run.Ensures.pure ha
    rw [if_neg hcV]
    by_cases hcd : c = 'd'
    · rw [if_pos hcd]
      exact Run.Ensures.pure ha
    rw [if_neg hcd]
    by_cases hcg : c = 'g'
    · rw [if_pos hcg]
      exact Run.Ensures.of_not_returns (fun _ h => by cases h)
    rw [if_neg hcg]
    by_cases hcf : c = 'f'
    · rw [if_pos hcf]
      cases optarg with
      | none => exact Run.Ensures.of_not_returns (fun _ h => by cases h)
      | some configfile => exact Run.Ensures.of_not_returns (fun _ h => by cases h)
    rw [if_neg hcf]
    by_cases hcp : c = 'p'
    · rw [if_pos hcp]
      exact (writePidFile_ensures host a optarg).mono (fun b hb => by rw [hb]; exact ha)
    rw [if_neg hcp]
    by_cases hca : c = 'a'
    · rw [if_pos hca]
      refine Run.Ensures.bind (setstr_ensures _ _) (fun p _ => ?_)
      cases p <;> exact Run.Ensures.pure ha
    rw [if_neg hca]
    by_cases hcc : c = 'c'
    · rw [if_pos hcc]
      exact Run.Ensures.bind (setstr_ensures _ _) (fun p _ => Run.Ensures.pure ha)
    rw [if_neg hcc]
    by_cases hcs : c = 's'
    · rw [if_pos hcs]
      exact Run.Ensures.bind (setstr_ensures _ _) (fun p _ => Run.Ensures.pure ha)
    rw [if_neg hcs]
    by_cases hcw : c = 'w'
    · rw [if_pos hcw]
      exact Run.Ensures.bind (setstr_ensures _ _) (fun p _ => Run.Ensures.pure ha)
    rw [if_neg hcw]
    by_cases hcD : c = 'D'
    · rw [if_pos hcD]
      exact Run.Ensures.bind (setstr_ensures _ _) (fun p _ => Run.Ensures.pure ha)
    rw [if_neg hcD]
    by_cases hcE : c = 'E'
    · rw [if_pos hcE]
      exact Run.Ensures.bind (setstr_ensures _ _) (fun p _ => Run.Ensures.pure ha)
    rw [if_neg hcE]
    by_cases hcS : c = 'S'
    · rw [if_pos hcS]
      exact Run.Ensures.bind (setstr_ensures _ _) (fun p _ => Run.Ensures.pure ha)
    rw [if_neg hcS]
    by_cases hcW : c = 'W'
    · rw [if_pos hcW]
      exact Run.Ensures.bind (setstr_ensures _ _) (fun p _ => Run.Ensures.pure ha)
    rw [if_neg hcW]
    by_cases hct : c = 't'
    · rw [if_pos hct]
      cases optarg with
      | none => exact Run.Ensures.of_not_returns (fun _ h => by cases h)
      | some arg =>
        exact Run.Ensures.bind (P := fun _ => True) (fun _ _ => trivial)
          (fun t _ => Run.Ensures.pure ha)
    rw [if_neg hct]
    by_cases hci : c = 'i'
    · rw [if_pos hci]
      exact Run.Ensures.bind (setstr_ensures _ _) (fun p _ => Run.Ensures.pure ha)
    rw [if_neg hci]
    by_cases hcR : c = 'R'
    · rw [if_pos hcR]
      exact Run.Ensures.bind (setstr_ensures _ _) (fun p _ => Run.Ensures.pure rfl)
    rw [if_neg hcR]
    by_cases hcb : c = 'b'
    · rw [if_pos hcb]
      cases optarg with
      | none => exact Run.Ensures.of_not_returns (fun _ h => by cases h)
      | some arg =>
        exact Run.Ensures.bind (P := fun _ => True) (fun _ _ => trivial)
          (fun t _ => Run.Ensures.pure ha)
    rw [if_neg hcb]
    by_cases hcr : c = 'r'
    · rw [if_pos hcr]
      exact Run.Ensures.bind (setstr_ensures _ _) (fun p _ => Run.Ensures.pure ha)
    rw [if_neg hcr]
    by_cases hcP : c = 'P'
    · rw [if_pos hcP]
      exact Run.Ensures.bind (setstr_ensures _ _) (fun p _ => Run.Ensures.pure ha)
    rw [if_neg hcP]
    by_cases hcU : c = 'U'
    · rw [if_pos hcU]
      exact Run.Ensures.bind (setstr_ensures _ _) (fun p _ => Run.Ensures.pure ha)
    rw [if_neg hcU]
    exact Run.Ensures.of_not_returns (fun _ h => by cases h)
  | succ fuel ih =>
    intro a c optarg ha
    unfold setOption setOptionBody
    by_cases hcn : c = 'n'
    · rw [if_pos hcn]
      exact Run.Ensures.of_not_returns (fun _ h => by cases h)
    rw [if_neg hcn]
    by_cases hcv : c = 'v'
    · rw [if_pos hcv]
      exact Run.Ensures.of_not_returns (fun _ h => by cases h)
    rw [if_neg hcv]
    by_cases hcV : c = 'V'
    · rw [if_pos hcV]
      exact Run.Ensures.pure ha
    rw [if_neg hcV]
    by_cases hcd : c = 'd'
    · rw [if_pos hcd]
      exact Run.Ensures.pure ha
    rw [if_neg hcd]
    by_cases hcg : c = 'g'
    · rw [if_pos hcg]
      exact Run.Ensures.of_not_returns (fun _ h => by cases h)
    rw [if_neg hcg]
    by_cases hcf : c = 'f'
    · rw [if_pos hcf]
      cases optarg with
      | none => exact Run.Ensures.of_not_returns (fun _ h => by cases h)
      | some configfile =>
        exact readConfig_ensures (setOption host fuel) host _
          (fun a c o ha => ih a c o ha) a configfile ha
    rw [if_neg hcf]
    by_cases hcp : c = 'p'
    · rw [if_pos hcp]
      exact (writePidFile_ensures host a optarg).mono (fun b hb => by rw [hb]; exact ha)
    rw [if_neg hcp]
    by_cases hca : c = 'a'
    · rw [if_pos hca]
      refine Run.Ensures.bind (setstr_ensures _ _) (fun p _ => ?_)
      cases p <;> exact Run.Ensures.pure ha
    rw [if_neg hca]
    by_cases hcc : c = 'c'
    · rw [if_pos hcc]
      exact Run.Ensures.bind (setstr_ensures _ _) (fun p _ => Run.Ensures.pure ha)
    rw [if_neg hcc]
    by_cases hcs : c = 's'
    · rw [if_pos hcs]
      exact Run.Ensures.bind (setstr_ensures _ _) (fun p _ => Run.Ensures.pure ha)
    rw [if_neg hcs]
    by_cases hcw : c = 'w'
    · rw [if_pos hcw]
      exact Run.Ensures.bind (setstr_ensures _ _) (fun p _ => Run.Ensures.pure ha)
    rw [if_neg hcw]
    by_cases hcD : c = 'D'
    · rw [if_pos hcD]
      exact Run.Ensures.bind (setstr_ensures _ _) (fun p _ => Run.Ensures.pure ha)
    rw [if_neg hcD]
    by_cases hcE : c = 'E'
    · rw [if_pos hcE]
      exact Run.Ensures.bind (setstr_ensures _ _) (fun p _ => Run.Ensures.pure ha)
    rw [if_neg hcE]
    by_cases hcS : c = 'S'
    · rw [if_pos hcS]
      exact Run.Ensures.bind (setstr_ensures _ _) (fun p _ => Run.Ensures.pure ha)
    rw [if_neg hcS]
    by_cases hcW : c = 'W'
    · rw [if_pos hcW]
      exact Run.Ensures.bind (setstr_ensures _ _) (fun p _ => Run.Ensures.pure ha)
    rw [if_neg hcW]
    by_cases hct : c = 't'
    · rw [if_pos hct]
      cases optarg with
      | none => exact Run.Ensures.of_not_returns (fun _ h => by cases h)
      | some arg =>
        exact Run.Ensures.bind (P := fun _ => True) (fun _ _ => trivial)
          (fun t _ => Run.Ensures.pure ha)
    rw [if_neg hct]
    by_cases hci : c = 'i'
    · rw [if_pos hci]
      exact Run.Ensures.bind (setstr_ensures _ _) (fun p _ => Run.Ensures.pure ha)
    rw [if_neg hci]
    by_cases hcR : c = 'R'
    · rw [if_pos hcR]
      exact Run.Ensures.bind (setstr_ensures _ _) (fun p _ => Run.Ensures.pure rfl)
    rw [if_neg hcR]
    by_cases hcb : c = 'b'
    · rw [if_pos hcb]
      cases optarg with
      | none => exact Run.Ensures.of_not_returns (fun _ h => by cases h)
      | some arg =>
        exact Run.Ensures.bind (P := fun _ => True) (fun _ _ => trivial)
          (fun t _ => Run.Ensures.pure ha)
    rw [if_neg hcb]
    by_cases hcr : c = 'r'
    · rw [if_pos hcr]
      exact Run.Ensures.bind (setstr_ensures _ _) (fun p _ => Run.Ensures.pure ha)
    rw [if_neg hcr]
    by_cases hcP : c = 'P'
    · rw [if_pos hcP]
      exact Run.Ensures.bind (setstr_ensures _ _) (fun p _ => Run.Ensures.pure ha)
    rw [if_neg hcP]
    by_cases hcU : c = 'U'
    · rw [if_pos hcU]
      exact Run.Ensures.bind (setstr_ensures _ _) (fun p _ => Run.Ensures.pure ha)
    rw [if_neg hcU]
    exact Run.Ensures.of_not_returns (fun _ h => by cases h)

theorem foldlM_ensures {α : Type} (f : Args → α → Run Args) (P : Args → Prop)
    (hf : ∀ a o, P a → (f a o).Ensures P) :
    ∀ (l : List α) (a : Args), P a → (l.foldlM f a).Ensures P := by
  intro l
  induction l with
  | nil => intro a ha; exact Run.Ensures.pure ha
  | cons o l ih =>
    intro a ha
    rw [List.foldlM_cons]
    exact Run.Ensures.bind (hf a o ha) (fun b hb => ih b hb)

theorem parseArgs_clears_idleresume (host : Host) (fuel : Nat) (a a' : Args)
    (argv : List String) (h : (parseArgs host fuel a argv).outcome = .returns a') :
    a'.idleresume = false := by
  obtain ⟨_, _, b, hfold, hb⟩ := parseArgs_returns host fuel a a' argv h
  have hbres : b.idleresume = false :=
    foldlM_ensures (fun a (o : Char × Option String) => setOption host fuel a o.1 o.2)
      (fun b => b.idleresume = false)
      (fun a o ha => setOption_keeps_idleresume host fuel a o.1 o.2 ha) _ _ rfl b hfold
  rw [checkArgs_outcome] at hb
  cases hb
  exact hbres

theorem signalCallback_sighup_returns (host : Host) (fuel : Nat) (s s' : State) (current : Double)
    (h : (signalCallback host fuel s current .SIGHUP).outcome = .returns s') :
    (parseArgs host fuel s.args s.args.argv).outcome = .returns s'.args ∧
    s' = setupIdleTimer { s with args := s'.args } current := by
  unfold signalCallback at h
  rw [Run.message_bind_outcome] at h
  obtain ⟨a, ha, hs⟩ := Run.bind_returns h
  cases hs
  exact ⟨ha, rfl⟩

/-! ## The idle-resume flag between activity events -/

/-- Claim C11, counterexample: the program runs with `idleArgv`, the idle timer
fires (`idleCallback` sets `args.idleresume`), then the hangup signal
arrives; after the reconfiguration `args.idleresume` is clear. -/
theorem reload_clears_idleresume :
    (parseArgs idleHost 0 zeroArgs idleArgv).outcome = .returns parsedIdleArgs ∧
    (idleCallback (startup parsedIdleArgs)).1.args.idleresume = true ∧
    ((signalCallback idleHost 0 (idleCallback (startup parsedIdleArgs)).1 0 .SIGHUP).outcome.value?.map
      (fun s => s.args.idleresume)) = some false := by
  decide

/-- Claim C11, amended: once `idleCallback` has run `idlecommand` and set
`args.idleresume`, the flag stays set through every display, system-power and
power-source notification (and through a further firing of the idle timer);
a reconfiguration on the hangup signal does not keep it: whenever
`signalCallback` returns from it, `args.idleresume` is clear. -/
theorem idleresume_until_reload (env : Env) (host : Host) (fuel : Nat) (s : State)
    (current : Double) :
    commands (idleCallback s).2 = [(Command.idle, s.args.idlecommand)] ∧
    (idleCallback s).1.args.idleresume = true ∧
    (∀ msgType, (displayCallback s msgType).1.args.idleresume = s.args.idleresume) ∧
    (∀ msgType, (powerCallback env s current msgType).1.args.idleresume = s.args.idleresume) ∧
    (∀ info, (powerSourceCallback s info).1.args.idleresume = s.args.idleresume) ∧
    (∀ s', (signalCallback host fuel s current .SIGHUP).outcome = .returns s' →
      s'.args.idleresume = false) := by
  refine ⟨?_, rfl, ?_, ?_, ?_, ?_⟩
  · unfold idleCallback
    simp only [commands_append, commands_message]
    simp [commands]
  · intro msgType
    unfold displayCallback
    cases msgType <;> rfl
  · intro msgType
    unfold powerCallback
    cases msgType with
    | kIOMessageCanSystemSleep => cases s.args.allowsleepcommand <;> rfl
    | _ => rfl
  · intro info
    unfold powerSourceCallback
    dsimp only
    split <;> rfl
  · intro s' h
    obtain ⟨hp, _⟩ := signalCallback_sighup_returns host fuel s s' current h
    exact parseArgs_clears_idleresume host fuel _ _ _ hp

/-- Witness for `idleresume_until_reload`: with the flag set, a display
notification leaves it set and the reload on `idleHost` returns with the flag
clear. -/
theorem idleresume_until_reload_witness :
    (displayCallback (idleCallback (startup parsedIdleArgs)).1
      .kIOMessageDeviceWillPowerOff).1.args.idleresume = true ∧
    ∃ s', (signalCallback idleHost 0 (idleCallback (startup parsedIdleArgs)).1 0 .SIGHUP).outcome
        = .returns s' ∧ s'.args.idleresume = false :=
  ⟨(idleresume_until_reload (exitsWith 0) idleHost 0 (idleCallback (startup parsedIdleArgs)).1
      0).2.2.1 .kIOMessageDeviceWillPowerOff,
    setupIdleTimer { (idleCallback (startup parsedIdleArgs)).1 with args := parsedIdleArgs } 0,
    by rfl,
    (idleresume_until_reload (exitsWith 0) idleHost 0 (idleCallback (startup parsedIdleArgs)).1
      0).2.2.2.2.2 _ (by rfl)⟩

/-! ## Reconfiguration -/

theorem setOption_timeout (host : Host) (fuel : Nat) (a : Args) (arg : String) :
    setOption host fuel a 't' (some arg) =
      (scanTime a arg "invalid digit(s) in timeout argument '%s'\n" >>= fun t =>
        pure { a with idletimeout := t }) := by
  cases fuel <;> rfl

theorem setOption_break (host : Host) (fuel : Nat) (a : Args) (arg : String) :
    setOption host fuel a 'b' (some arg) =
      (scanTime a arg "invalid digit(s) in pause argument '%s'\n" >>= fun t =>
        pure { a with breaklength := t }) := by
  cases fuel <;> rfl

/-- Claim C12, counterexample: the program runs with `-f conf`, where `conf`
sets `timeout=50` and `idle=idle`; `conf` is then changed to `timeout=5x` and
the hangup signal arrives. The reload reports the invalid timeout and leaves
a configuration with timeout 0 and no idle command, which is not the
configuration before. -/
theorem reload_with_invalid_timeout :
    (parseArgs (confHost "timeout=50\nidle=idle\n") 1 zeroArgs confArgv).outcome
      = .returns parsedConfArgs ∧
    ConfigEffect.effect (Effect.output LOG_ERR "invalid digit(s) in timeout argument '%s'\n") ∈
      (signalCallback (confHost "timeout=5x\nidle=idle\n") 1 (startup parsedConfArgs) 0
        .SIGHUP).trace ∧
    ((signalCallback (confHost "timeout=5x\nidle=idle\n") 1 (startup parsedConfArgs) 0
        .SIGHUP).outcome.value?.map State.args)
      = some { parsedConfArgs with idletimeout := 0, idlecommand := none } ∧
    ({ parsedConfArgs with idletimeout := 0, idlecommand := none } : Args) ≠ parsedConfArgs := by
  decide

/-- Claim C12, amended: for every reload (`signalCallback` on the hangup
signal) from which the program continues, with or without a parser-level
error, the configuration in force afterwards is the one `parseArgs` builds
anew from the arguments and the config files as they are then: it is what a
first `parseArgs` would give and the same after any configuration before. A
timeout or break argument that contains a non-digit character is stored as
-1, and `parseArgs` then leaves that timeout 0 and its command unset. -/
theorem reload_parses_anew (host : Host) (fuel : Nat) (s s' : State) (current : Double)
    (h : (signalCallback host fuel s current .SIGHUP).outcome = .returns s') :
    (parseArgs host fuel zeroArgs s.args.argv).outcome = .returns s'.args ∧
    (∀ before : Args, before.allowsleepcommand ≠ .DENY_SLEEP →
      (parseArgs host fuel before s.args.argv).outcome = .returns s'.args) ∧
    (∀ (a : Args) (arg : String), (∃ c ∈ arg.toList, isdigit c = false) →
      (setOption host fuel a 't' (some arg)).outcome = .returns { a with idletimeout := -1 } ∧
      (setOption host fuel a 'b' (some arg)).outcome = .returns { a with breaklength := -1 }) ∧
    (∀ a : Args, a.idletimeout = -1 →
      ∃ a', (checkArgs a).outcome = .returns a' ∧ a'.idletimeout = 0 ∧ a'.idlecommand = none) ∧
    (∀ a : Args, a.breaklength = -1 →
      ∃ a', (checkArgs a).outcome = .returns a' ∧ a'.breaklength = 0 ∧
        a'.resumecommand = none) := by
  obtain ⟨hp, _⟩ := signalCallback_sighup_returns host fuel s s' current h
  have hnd := (parseArgs_returns host fuel _ _ _ hp).1
  have hany : ∀ before : Args, before.allowsleepcommand ≠ .DENY_SLEEP →
      (parseArgs host fuel before s.args.argv).outcome = .returns s'.args := by
    intro before hb
    rw [parseArgs_outcome host fuel before _ hb, ← parseArgs_outcome host fuel s.args _ hnd]
    exact hp
  refine ⟨hany zeroArgs (by decide), hany, ?_, ?_, ?_⟩
  · intro a arg hnon
    rw [setOption_timeout, setOption_break]
    rw [Run.bind_outcome_of_returns (scanTime_nondigit a arg _ hnon)]
    rw [Run.bind_outcome_of_returns (scanTime_nondigit a arg _ hnon)]
    exact ⟨rfl, rfl⟩
  · intro a ha
    refine ⟨_, checkArgs_outcome a, ?_, ?_⟩
    · simp [checkedPair, ha]
    · simp [checkedPair, ha]
  · intro a ha
    refine ⟨_, checkArgs_outcome a, ?_, ?_⟩
    · simp [checkedPair, ha]
    · simp [checkedPair, ha]

/-- Witness for `reload_parses_anew`: the reload with `conf` changed to
`timeout=5x` returns, and a first `parseArgs` on that file gives the
configuration it leaves. -/
theorem reload_parses_anew_witness :
    (parseArgs (confHost "timeout=5x\nidle=idle\n") 1 zeroArgs confArgv).outcome
      = .returns { parsedConfArgs with idletimeout := 0, idlecommand := none } :=
  (reload_parses_anew (confHost "timeout=5x\nidle=idle\n") 1 (startup parsedConfArgs)
    (setupIdleTimer { startup parsedConfArgs with
      args := { parsedConfArgs with idletimeout := 0, idlecommand := none } } 0)
    0 (by rfl)).1

/-! ## The deny-sleep sentinel -/

/-- Claim C14, the code at the failing input: the program runs with `-a`
(no command), so `parseArgs` leaves `allowsleepcommand` at `DENY_SLEEP`, and
in that first run no call of `setstr` gets the sentinel. On the hangup signal
`parseArgs` runs again and its first `setstr` call gets `DENY_SLEEP` as the
old value, which `setstr` hands to `free`. The option `a` itself replaces the
sentinel by null before it calls `setstr`. -/
theorem reload_hands_deny_sleep_to_setstr :
    (parseArgs denyHost 0 zeroArgs denyArgv).outcome = .returns parsedDenyArgs ∧
    (∀ newstr, ConfigEffect.setstr .DENY_SLEEP newstr ∉
      (parseArgs denyHost 0 zeroArgs denyArgv).trace) ∧
    signalCallback denyHost 0 (startup parsedDenyArgs) 0 .SIGHUP
      = ⟨[.setstr .DENY_SLEEP none], .undefined⟩ ∧
    (setOption denyHost 0 parsedDenyArgs 'a' none).trace = [.setstr .NULL none] := by
  refine ⟨by decide, ?_, by decide, by decide⟩
  intro newstr
  have htrace : (parseArgs denyHost 0 zeroArgs denyArgv).trace
      = List.replicate 15 (ConfigEffect.setstr .NULL none) := by decide
  rw [htrace]
  simp

end Sleepwatcher
